import Mathlib

/-!
# Telegram command relay (`server.js`)

A shallow embedding of the request handlers of `server.js` and the properties of
the relay that follow from them.

Conventions of the embedding

* Every `axios.post` is recorded, in order, in `World.posts`; the outcome of the
  `n`-th POST is supplied by `Runtime.post n`.
* Every `setTimeout` is recorded in `World.timers` together with the send its
  callback performs when it fires.
* `Math.random()`, number formatting and the clock are supplied by `Runtime`.
* A JavaScript number that is not an identifier is a double, held as the exact rational it
  denotes; every arithmetic operation and every decimal literal rounds to the nearest double
  (`roundDouble`). Results beyond the finite range of doubles do not occur in these handlers
  and are not modelled.
* A handler that can throw returns `Except Fault _` next to the world it leaves.
* `console.log` / `console.error` are not modelled.
-/

set_option autoImplicit false

namespace Relay

/-! ## JavaScript values and strings -/

/-- A JSON value as a handler reads it from a request body.
`number` carries an integer of magnitude at most `2 ^ 53`, the range where a JavaScript
number holds the integer exactly and prints it in plain decimal form (chat ids lie in
this range).  `object toStr` stands for an array or an object: it is truthy, and
converting it to a string yields `toStr`, or throws a `TypeError` when `toStr` is `none`
(an object carrying its own non-callable `toString` member). -/
inductive JsValue where
  | undefined
  | null
  | bool (b : Bool)
  | number (n : Int) (safe : n.natAbs ≤ 9007199254740992)
  | string (s : String)
  | object (toStr : Option String)
deriving DecidableEq

/-- Faults a handler can raise. Every fault in these handlers is a `TypeError`. -/
inductive Fault where
  | typeError
deriving DecidableEq

/-- JavaScript truthiness (`!v` is its negation). -/
def JsValue.truthy : JsValue → Bool
  | .undefined => false
  | .null => false
  | .bool b => b
  | .number n _ => decide (n ≠ 0)
  | .string s => decide (s ≠ "")
  | .object _ => true

/-- The method call `v.toString()`; `none` when it throws. -/
def JsValue.toString? : JsValue → Option String
  | .undefined => none
  | .null => none
  | .bool b => some (if b then "true" else "false")
  | .number n _ => some (toString n)
  | .string s => some s
  | .object toStr => toStr

/-- String conversion inside a template literal; `none` when it throws. -/
def JsValue.render? : JsValue → Option String
  | .undefined => some "undefined"
  | .null => some "null"
  | .bool b => some (if b then "true" else "false")
  | .number n _ => some (toString n)
  | .string s => some s
  | .object toStr => toStr

/-- Pieces of a character list between occurrences of `sep`. -/
def splitChars (sep : Char) : List Char → List (List Char)
  | [] => [[]]
  | c :: cs =>
    if c = sep then [] :: splitChars sep cs
    else
      match splitChars sep cs with
      | [] => [[c]]
      | p :: ps => (c :: p) :: ps

/-- `s.split(sep)` for a one-character separator. -/
def split (s : String) (sep : Char) : List String :=
  (splitChars sep s.data).map String.mk

/-- `s.startsWith(pre)`. -/
def startsWith (s pre : String) : Bool :=
  pre.data.isPrefixOf s.data

/-- `parts.join(sep)`. -/
def join (parts : List String) (sep : String) : String :=
  sep.intercalate parts

/-! ## Double arithmetic -/

/-- Rounding of a rational to the nearest integer, ties to the even one. -/
def roundHalfEven (y : ℚ) : ℤ :=
  let n := ⌊y⌋
  let f := y - n
  if f < 1 / 2 then n
  else if 1 / 2 < f then n + 1
  else if n % 2 = 0 then n
  else n + 1

/-- The binary exponent of the last place of a double of the magnitude of `x`: 52 places
below the leading bit, and not below `2 ^ (-1074)`, the spacing of the subnormal doubles. -/
def ulpExp (x : ℚ) : ℤ :=
  max (Int.log 2 |x| - 52) (-1074)

/-- The double nearest to `x`, ties to even, as an exact rational (finite range). -/
def roundDouble (x : ℚ) : ℚ :=
  roundHalfEven (x / 2 ^ ulpExp x) * 2 ^ ulpExp x

/-- The sum `a + b` of two doubles. -/
def fadd (a b : ℚ) : ℚ := roundDouble (a + b)

/-- The difference `a - b` of two doubles. -/
def fsub (a b : ℚ) : ℚ := roundDouble (a - b)

/-- The product `a * b` of two doubles. -/
def fmul (a b : ℚ) : ℚ := roundDouble (a * b)

/-! ## Configuration -/

/-- `AUTHORIZED_CHAT_IDS` (line 15): the comma-split of the environment variable, and the
empty list when the variable is unset or empty. -/
def AUTHORIZED_CHAT_IDS (env : Option String) : List String :=
  match env with
  | none => []
  | some v => if v ≠ "" then split v ',' else []

/-! ## Outbound HTTP calls and the world -/

/-- What an `axios.post` call resolves or rejects with. -/
inductive HttpOutcome where
  | ok (data : String)
  | error (message : String)
deriving DecidableEq

/-- One `axios.post` to the bot API: the method called and its payload. -/
inductive HttpPost where
  | sendMessage (chat_id : JsValue) (text : String) (reply_to_message_id : Option JsValue)
  | sendPhoto (chat_id : JsValue) (photo : String) (caption : String)
  | sendLocation (chat_id : JsValue) (latitude : ℚ) (longitude : ℚ)
  | answerCallbackQuery (callback_query_id : JsValue)
deriving DecidableEq

/-- The chat a POST is addressed to. -/
def HttpPost.target : HttpPost → Option JsValue
  | .sendMessage chat_id _ _ => some chat_id
  | .sendPhoto chat_id _ _ => some chat_id
  | .sendLocation chat_id _ _ => some chat_id
  | .answerCallbackQuery _ => none

/-- The body of a `setTimeout` callback in `handleCommand`. -/
inductive Deferred where
  | photo (chatId : JsValue) (photoUrl : String) (caption : String)
  | message (chatId : JsValue) (text : String) (replyToMessageId : JsValue)
deriving DecidableEq

/-- The chat a deferred send is addressed to. -/
def Deferred.target : Deferred → JsValue
  | .photo chatId _ _ => chatId
  | .message chatId _ _ => chatId

/-- A pending timer: its delay in milliseconds and what it does when it fires. -/
structure Timer where
  delay : Nat
  task : Deferred
deriving DecidableEq

/-- What the handlers take from their environment. -/
structure Runtime where
  /-- Outcome of the `n`-th `axios.post` (counting from 0). -/
  post : Nat → HttpOutcome
  /-- Value of the `n`-th `Math.random()` call (counting from 0): a double. -/
  random : Nat → ℚ
  /-- Number-to-string conversion inside a template literal. -/
  numberToString : ℚ → String
  /-- The method `toFixed(6)`. -/
  toFixed6 : ℚ → String
  /-- The value of `new Date().toISOString()`. -/
  now : String
  /-- The `message` of a fault. -/
  errorMessage : Fault → String

/-- Effects performed so far. -/
structure World where
  posts : List HttpPost
  timers : List Timer
  draws : Nat
deriving DecidableEq

/-- The world before anything happened. -/
def World.init : World := ⟨[], [], 0⟩

/-- `axios.post(...)`: records the call and yields its outcome. -/
def axiosPost (rt : Runtime) (p : HttpPost) (w : World) : HttpOutcome × World :=
  (rt.post w.posts.length, { w with posts := w.posts ++ [p] })

/-- `Math.random()`. -/
def mathRandom (rt : Runtime) (w : World) : ℚ × World :=
  (rt.random w.draws, { w with draws := w.draws + 1 })

/-- `setTimeout(callback, ms)`. -/
def setTimeout (task : Deferred) (ms : Nat) (w : World) : World :=
  { w with timers := w.timers ++ [⟨ms, task⟩] }

/-- The value a gateway helper returns: `{success: true, data}` or
`{success: false, error}`. -/
inductive SendResult where
  | success (data : String)
  | failure (error : String)
deriving DecidableEq

/-- `sendTelegramMessage` (lines 28-50). A caller that omits `replyToMessageId` passes
`null`, the default. -/
def sendTelegramMessage (rt : Runtime) (chatId : JsValue) (message : String)
    (replyToMessageId : JsValue) (w : World) : SendResult × World :=
  let reply := if replyToMessageId.truthy then some replyToMessageId else none
  match axiosPost rt (.sendMessage chatId message reply) w with
  | (.ok data, w1) => (.success data, w1)
  | (.error msg, w1) => (.failure msg, w1)

/-- `sendTelegramPhoto` (lines 53-69). -/
def sendTelegramPhoto (rt : Runtime) (chatId : JsValue) (photoUrl : String)
    (caption : String) (w : World) : SendResult × World :=
  match axiosPost rt (.sendPhoto chatId photoUrl caption) w with
  | (.ok data, w1) => (.success data, w1)
  | (.error msg, w1) => (.failure msg, w1)

/-- `sendTelegramLocation` (lines 72-88). -/
def sendTelegramLocation (rt : Runtime) (chatId : JsValue) (latitude longitude : ℚ)
    (w : World) : SendResult × World :=
  match axiosPost rt (.sendLocation chatId latitude longitude) w with
  | (.ok data, w1) => (.success data, w1)
  | (.error msg, w1) => (.failure msg, w1)

/-- Running the callback of a timer that fires. -/
def Deferred.run (rt : Runtime) (d : Deferred) (w : World) : World :=
  match d with
  | .photo chatId photoUrl caption => (sendTelegramPhoto rt chatId photoUrl caption w).2
  | .message chatId text replyTo => (sendTelegramMessage rt chatId text replyTo w).2

/-! ## Canned replies -/

/-- Reply to `/start` (lines 138-157). -/
def startText : String :=
  "🤖 <b>Remote Device Controller Bot</b>\n\n" ++
  "Gunakan perintah berikut untuk mengontrol perangkat:\n\n" ++
  "📱 <b>Informasi Perangkat</b>\n" ++
  "/battery - Cek status baterai\n" ++
  "/location - Dapatkan lokasi perangkat\n" ++
  "/deviceinfo - Informasi perangkat\n\n" ++
  "📸 <b>Kamera & Media</b>\n" ++
  "/screenshot - Ambil screenshot\n" ++
  "/camera - Ambil foto dari kamera\n" ++
  "/flash - Nyalakan/matikan flash\n\n" ++
  "⚙️ <b>Sistem</b>\n" ++
  "/apps - Daftar aplikasi terinstall\n" ++
  "/notifications - Notifikasi terbaru\n" ++
  "/reboot - Restart perangkat\n\n" ++
  "📞 <b>Pesan & Panggilan</b>\n" ++
  "/sms [nomor] [pesan] - Kirim SMS\n" ++
  "/call [nomor] - Lakukan panggilan\n\n" ++
  "🆘 <b>Lainnya</b>\n" ++
  "/help - Tampilkan bantuan ini\n" ++
  "/status - Status koneksi"

/-- Reply to `/help` (lines 163-167). -/
def helpText : String :=
  "🆘 <b>Bantuan Perintah</b>\n\n" ++
  "Gunakan format berikut:\n\n" ++
  "• <code>/sms +628123456789 Pesan Anda</code>\n" ++
  "• <code>/call +628123456789</code>\n\n" ++
  "Perintah lainnya langsung ketik tanpa parameter."

/-- Reply to `/status` (line 173). -/
def statusText : String := "✅ Perangkat terhubung dan siap menerima perintah."

/-- Reply to `/battery` (lines 181-184). -/
def batteryText (batteryLevel : Int) (isCharging : Bool) : String :=
  "🔋 <b>Status Baterai</b>\n" ++
  "Level: " ++ toString batteryLevel ++ "%\n" ++
  "Status: " ++ (if isCharging then "Sedang diisi" else "Tidak diisi") ++ "\n" ++
  "Kesehatan: Baik"

/-- Reply to `/location` (lines 195-199). -/
def locationText (rt : Runtime) (lat lng : ℚ) : String :=
  "📍 <b>Lokasi Perangkat</b>\n" ++
  "Latitude: " ++ rt.toFixed6 lat ++ "\n" ++
  "Longitude: " ++ rt.toFixed6 lng ++ "\n" ++
  "Akurasi: ±20 meter\n\n" ++
  "<a href=\"https://maps.google.com/?q=" ++ rt.numberToString lat ++ "," ++
  rt.numberToString lng ++ "\">Lihat di Google Maps</a>"

/-- Reply to `/deviceinfo` (lines 207-213). -/
def deviceInfoText : String :=
  "📱 <b>Informasi Perangkat</b>\n\n" ++
  "Model: Samsung Galaxy S21\n" ++
  "Android: 13.0\n" ++
  "RAM: 8 GB\n" ++
  "Storage: 128 GB\n" ++
  "IMEI: 123456789012345\n" ++
  "IP Address: 192.168.1.100"

/-- The list `apps` (line 247). -/
def apps : List String := ["WhatsApp", "Instagram", "Facebook", "Chrome", "YouTube", "Gmail"]

/-- The string `appList` (line 248). -/
def appList : String := join ((apps.take 5).map (fun app => "• " ++ app)) "\n"

/-- Reply to `/apps` (line 250). -/
def appsText : String :=
  "📲 <b>Aplikasi Terinstall</b>\n\n" ++ appList ++ "\n\n...dan " ++
  toString (apps.length - 5) ++ " aplikasi lainnya."

/-- Reply to `/notifications` (lines 258-261). -/
def notificationsText : String :=
  "🔔 <b>Notifikasi Terbaru</b>\n\n" ++
  "• WhatsApp: Pesan baru dari John\n" ++
  "• Instagram: Ada yang menyukai foto Anda\n" ++
  "• Gmail: Email penting dari bank"

/-- The "SMS sent" reply (lines 280-282). -/
def smsSentText (number message : String) : String :=
  "📱 <b>SMS Terkirim</b>\n\n" ++
  "Ke: " ++ number ++ "\n" ++
  "Pesan: " ++ message

/-- The `/sms` usage hint (line 287). -/
def smsUsageText : String :=
  "Format: /sms [nomor] [pesan]\nContoh: /sms +628123456789 Halo, ini pesan tes"

/-- The "calling" reply (line 296). -/
def callingText (number : String) : String :=
  "📞 <b>Memanggil</b>\n\nNomor: " ++ number

/-- The `/call` usage hint (line 301). -/
def callUsageText : String :=
  "Format: /call [nomor]\nContoh: /call +628123456789"

/-- Reply to an unrecognised slash command (line 306). -/
def unknownCommandText : String := "Perintah tidak dikenali. Gunakan /help untuk bantuan."

/-- Reply to a message that is not a command (line 129). -/
def notACommandText : String :=
  "Perintah tidak dikenali. Gunakan /help untuk melihat daftar perintah."

/-- Reply to a sender that is not on the list (line 120). -/
def notAuthorizedText : String := "❌ Anda tidak diizinkan mengakses perangkat ini."

/-! ## The chat path -/

/-- `handleCommand` (lines 134-310). -/
def handleCommand (rt : Runtime) (chatId : JsValue) (command : String) (messageId : JsValue)
    (w : World) : World :=
  if command = "/start" then
    (sendTelegramMessage rt chatId startText messageId w).2
  else if command = "/help" then
    (sendTelegramMessage rt chatId helpText messageId w).2
  else if command = "/status" then
    (sendTelegramMessage rt chatId statusText messageId w).2
  else if command = "/battery" then
    let (r1, w1) := mathRandom rt w
    let batteryLevel := ⌊fmul r1 100⌋
    let (r2, w2) := mathRandom rt w1
    let isCharging := decide (r2 > 0.5)
    (sendTelegramMessage rt chatId (batteryText batteryLevel isCharging) messageId w2).2
  else if command = "/location" then
    let (r1, w1) := mathRandom rt w
    let lat := fadd (roundDouble (-6.2088)) (fmul (fsub r1 0.5) (roundDouble 0.01))
    let (r2, w2) := mathRandom rt w1
    let lng := fadd (roundDouble 106.8456) (fmul (fsub r2 0.5) (roundDouble 0.01))
    let w3 := (sendTelegramLocation rt chatId lat lng w2).2
    (sendTelegramMessage rt chatId (locationText rt lat lng) messageId w3).2
  else if command = "/deviceinfo" then
    (sendTelegramMessage rt chatId deviceInfoText messageId w).2
  else if command = "/screenshot" then
    let w1 := (sendTelegramMessage rt chatId "📸 Mengambil screenshot..." messageId w).2
    setTimeout
      (.photo chatId
        "https://via.placeholder.com/400x800/2a5298/ffffff?text=Screenshot+Simulasi"
        "Screenshot perangkat")
      2000 w1
  else if command = "/camera" then
    let w1 := (sendTelegramMessage rt chatId "📷 Mengambil foto dari kamera..." messageId w).2
    setTimeout
      (.photo chatId
        "https://via.placeholder.com/400x600/1e3c72/ffffff?text=Foto+Kamera+Simulasi"
        "Foto dari kamera perangkat")
      3000 w1
  else if command = "/flash" then
    (sendTelegramMessage rt chatId "🔦 Flash telah di-toggle" messageId w).2
  else if command = "/apps" then
    (sendTelegramMessage rt chatId appsText messageId w).2
  else if command = "/notifications" then
    (sendTelegramMessage rt chatId notificationsText messageId w).2
  else if command = "/reboot" then
    let w1 := (sendTelegramMessage rt chatId "🔄 Merestart perangkat..." messageId w).2
    setTimeout (.message chatId "✅ Perangkat telah direstart." messageId) 5000 w1
  else if startsWith command "/sms" then
    let parts := split command ' '
    if parts.length ≥ 3 then
      let number := parts.getD 1 ""
      let message := join (parts.drop 2) " "
      (sendTelegramMessage rt chatId (smsSentText number message) messageId w).2
    else
      (sendTelegramMessage rt chatId smsUsageText messageId w).2
  else if startsWith command "/call" then
    let parts := split command ' '
    if parts.length ≥ 2 then
      let number := parts.getD 1 ""
      (sendTelegramMessage rt chatId (callingText number) messageId w).2
    else
      (sendTelegramMessage rt chatId callUsageText messageId w).2
  else
    (sendTelegramMessage rt chatId unknownCommandText messageId w).2

/-- The `chat` member of a message. -/
structure Chat where
  id : JsValue
deriving DecidableEq

/-- A Telegram message as `handleMessage` reads it. `chat` is `none` when the member is
absent or `null`; absent `text` or `message_id` are `undefined`. -/
structure Message where
  chat : Option Chat
  text : JsValue
  message_id : JsValue
deriving DecidableEq

/-- `handleMessage` (lines 113-131). -/
def handleMessage (ids : List String) (rt : Runtime) (message : Message) (w : World) :
    Except Fault Unit × World :=
  match message.chat with
  | none => (.error .typeError, w)
  | some chat =>
    let chatId := chat.id
    let text := if message.text.truthy then message.text else .string ""
    let messageId := message.message_id
    match chatId.toString? with
    | none => (.error .typeError, w)
    | some s =>
      if ¬ s ∈ ids then
        (.ok (), (sendTelegramMessage rt chatId notAuthorizedText .null w).2)
      else
        match text with
        | .string t =>
          if startsWith t "/" then
            (.ok (), handleCommand rt chatId t messageId w)
          else
            (.ok (), (sendTelegramMessage rt chatId notACommandText .null w).2)
        | _ => (.error .typeError, w)

/-- A callback query as `handleCallbackQuery` reads it. -/
structure CallbackQuery where
  id : JsValue
  message : Option Message
  data : JsValue
deriving DecidableEq

/-- `handleCallbackQuery` (lines 313-327). A failure of the `answerCallbackQuery` POST is
caught and logged. -/
def handleCallbackQuery (rt : Runtime) (callbackQuery : CallbackQuery) (w : World) :
    Except Fault Unit × World :=
  match callbackQuery.message with
  | none => (.error .typeError, w)
  | some message =>
    match message.chat with
    | none => (.error .typeError, w)
    | some chat =>
      let chatId := chat.id
      match callbackQuery.data.render? with
      | none => (.error .typeError, w)
      | some data =>
        let w1 := (sendTelegramMessage rt chatId ("Anda memilih: " ++ data) .null w).2
        let w2 := (axiosPost rt (.answerCallbackQuery callbackQuery.id) w1).2
        (.ok (), w2)

/-! ## The HTTP endpoints -/

/-- Body of an HTTP response. -/
inductive ResBody where
  /-- A plain-text body, as in `res.send(...)`. -/
  | text (s : String)
  /-- The body `{success: true, message}`. -/
  | success (message : String)
  /-- The body `{success: false, error}`. -/
  | failure (error : String)
  /-- The body `{status, timestamp, authorized_chats}`. -/
  | health (status : String) (timestamp : String) (authorized_chats : Nat)
deriving DecidableEq

/-- An HTTP response. -/
structure Response where
  status : Nat
  body : ResBody
deriving DecidableEq

/-- A webhook update. A member is `none` when it is absent or falsy. -/
structure Update where
  message : Option Message
  callback_query : Option CallbackQuery
deriving DecidableEq

/-- `POST /webhook/telegram` (lines 91-110). -/
def webhookTelegram (ids : List String) (rt : Runtime) (update : Update) (w : World) :
    Response × World :=
  let r :=
    match update.message with
    | some message => handleMessage ids rt message w
    | none =>
      match update.callback_query with
      | some callbackQuery => handleCallbackQuery rt callbackQuery w
      | none => (.ok (), w)
  match r with
  | (.ok _, w1) => (⟨200, .text "OK"⟩, w1)
  | (.error _, w1) => (⟨500, .text "Error processing webhook"⟩, w1)

/-- The `data` member of a command request, as the handler observes it: falsy, or truthy
with `Object.keys(data).length = keys` and `JSON.stringify(data) = json`. -/
inductive DataField where
  | falsy
  | truthy (keys : Nat) (json : String)
deriving DecidableEq

/-- Body of a `POST /api/command` request. An absent member is `undefined`. -/
structure CommandRequest where
  command : JsValue
  data : DataField
  telegram_chat_id : JsValue
deriving DecidableEq

/-- The notification text of lines 352-356, for the text form `command` of the command. -/
def webCommandText (command : String) (data : DataField) : String :=
  let message := "🖥️ <b>Perintah dari Web</b>\n\nPerintah: <code>" ++ command ++ "</code>"
  match data with
  | .truthy keys json =>
    if keys > 0 then message ++ "\nData: <code>" ++ json ++ "</code>" else message
  | .falsy => message

/-- The `try` block of `POST /api/command` (lines 332-364). The template literals of lines
348 and 352 convert `command` to text, which throws for a command without a text form. -/
def apiCommandTry (ids : List String) (rt : Runtime) (body : CommandRequest) (w : World) :
    Except Fault Response × World :=
  let telegram_chat_id := body.telegram_chat_id
  if ¬ telegram_chat_id.truthy then
    (.ok ⟨400, .failure "Telegram chat ID diperlukan"⟩, w)
  else
    match telegram_chat_id.toString? with
    | none => (.error .typeError, w)
    | some s =>
      if ¬ s ∈ ids then
        (.ok ⟨403, .failure "Chat ID tidak diizinkan"⟩, w)
      else
        match body.command.render? with
        | none => (.error .typeError, w)
        | some command =>
          let message := webCommandText command body.data
          match sendTelegramMessage rt telegram_chat_id message .null w with
          | (.success _, w1) => (.ok ⟨200, .success "Perintah berhasil dikirim"⟩, w1)
          | (.failure error, w1) => (.ok ⟨500, .failure error⟩, w1)

/-- `POST /api/command` (lines 330-370). -/
def apiCommand (ids : List String) (rt : Runtime) (body : CommandRequest) (w : World) :
    Response × World :=
  match apiCommandTry ids rt body w with
  | (.ok res, w1) => (res, w1)
  | (.error fault, w1) => (⟨500, .failure (rt.errorMessage fault)⟩, w1)

/-- `GET /health` (lines 378-384). -/
def health (ids : List String) (rt : Runtime) : Response :=
  ⟨200, .health "OK" rt.now ids.length⟩

/-! ## Vocabulary of the properties -/

/-- The authorization test of lines 119 and 341 applied to a target: its string form is
an entry of the list. A target without a string form is not authorized. -/
def targetAuthorized (ids : List String) (target : JsValue) : Bool :=
  match target.toString? with
  | some s => decide (s ∈ ids)
  | none => false

/-- The text up to the first space. -/
def commandToken (text : String) : String :=
  (split text ' ').headD ""

/-- The arguments: the space-separated pieces after the command token. -/
def commandArgs (text : String) : List String :=
  (split text ' ').drop 1

/-- The commands that `handleCommand` names. -/
def knownCommands : List String :=
  ["/start", "/help", "/status", "/battery", "/location", "/deviceinfo", "/screenshot",
   "/camera", "/flash", "/apps", "/notifications", "/reboot", "/sms", "/call"]

/-- The commands matched by a `case` label of the `switch` in `handleCommand`. -/
def caseLabels : List String :=
  ["/start", "/help", "/status", "/battery", "/location", "/deviceinfo", "/screenshot",
   "/camera", "/flash", "/apps", "/notifications", "/reboot"]

/-- The `try` block of `POST /webhook/telegram` (lines 93-103): the dispatch on the update,
before the response is chosen. -/
def webhookTry (ids : List String) (rt : Runtime) (update : Update) (w : World) :
    Except Fault Unit × World :=
  match update.message with
  | some message => handleMessage ids rt message w
  | none =>
    match update.callback_query with
    | some callbackQuery => handleCallbackQuery rt callbackQuery w
    | none => (.ok (), w)

/-- Lines 124-130 of `handleMessage`: what is done with the text once the sender has passed the
check of line 119. -/
def handleText (rt : Runtime) (chatId : JsValue) (text : JsValue) (messageId : JsValue)
    (w : World) : Except Fault Unit × World :=
  match (if text.truthy then text else .string "") with
  | .string t =>
    if startsWith t "/" then
      (.ok (), handleCommand rt chatId t messageId w)
    else
      (.ok (), (sendTelegramMessage rt chatId notACommandText .null w).2)
  | _ => (.error .typeError, w)

/-- The kind of an outbound call. -/
inductive PostKind where
  | message
  | photo
  | location
  | callbackAnswer
deriving DecidableEq

/-- The kind of a POST. -/
def HttpPost.kind : HttpPost → PostKind
  | .sendMessage _ _ _ => .message
  | .sendPhoto _ _ _ => .photo
  | .sendLocation _ _ _ => .location
  | .answerCallbackQuery _ => .callbackAnswer

/-- The kind of the POST a deferred send makes. -/
def Deferred.kind : Deferred → PostKind
  | .photo _ _ _ => .photo
  | .message _ _ _ => .message

/-- The shape of what happened between the worlds `w` and `w1`: the kinds of the POSTs made, in
order, and the delay and kind of every send scheduled. -/
def effectShape (w w1 : World) : List PostKind × List (Nat × PostKind) :=
  ((w1.posts.drop w.posts.length).map HttpPost.kind,
   (w1.timers.drop w.timers.length).map (fun t => (t.delay, t.task.kind)))

/-- Following the spec (section 4.2): the Action variants that exist both on the dashboard and
in the chat. -/
inductive Action where
  | battery
  | location
  | deviceInfo
  | screenshot
  | camera
  | flashToggle
  | apps
  | notifications
  | reboot
  | sendSms (number body : String)
  | call (number : String)
deriving DecidableEq

/-- The `command` the dashboard sends for an action (`script.js`, lines 27-41, 98, 110). -/
def Action.webCommand : Action → String
  | .battery => "battery"
  | .location => "location"
  | .deviceInfo => "device_info"
  | .screenshot => "screenshot"
  | .camera => "camera"
  | .flashToggle => "flash_toggle"
  | .apps => "apps"
  | .notifications => "notifications"
  | .reboot => "reboot"
  | .sendSms _ _ => "send_sms"
  | .call _ => "call"

/-- The chat text of an action: the slash command of `handleCommand` with its arguments. -/
def Action.chatCommand : Action → String
  | .battery => "/battery"
  | .location => "/location"
  | .deviceInfo => "/deviceinfo"
  | .screenshot => "/screenshot"
  | .camera => "/camera"
  | .flashToggle => "/flash"
  | .apps => "/apps"
  | .notifications => "/notifications"
  | .reboot => "/reboot"
  | .sendSms number body => "/sms " ++ number ++ " " ++ body
  | .call number => "/call " ++ number

/-- The actions for which `handleCommand` makes one POST and schedules nothing. -/
def Action.singleReply : Action → Bool
  | .location => false
  | .screenshot => false
  | .camera => false
  | .reboot => false
  | _ => true

/-- A runtime in which every POST succeeds. -/
def sampleRuntime : Runtime where
  post := fun _ => .ok "ok"
  random := fun _ => 0
  numberToString := fun _ => "0"
  toFixed6 := fun _ => "0.000000"
  now := "2024-01-01T00:00:00.000Z"
  errorMessage := fun _ => "TypeError"

/-- A runtime whose first random draw is `r1` and whose later draws are `r2`. -/
def drawsRuntime (r1 r2 : ℚ) : Runtime where
  post := fun _ => .ok "ok"
  random := fun n => if n = 0 then r1 else r2
  numberToString := fun _ => "0"
  toFixed6 := fun _ => "0.000000"
  now := "2024-01-01T00:00:00.000Z"
  errorMessage := fun _ => "TypeError"

/-- A runtime in which every POST fails with `Network Error`. -/
def offlineRuntime : Runtime where
  post := fun _ => .error "Network Error"
  random := fun _ => 0
  numberToString := fun _ => "0"
  toFixed6 := fun _ => "0.000000"
  now := "2024-01-01T00:00:00.000Z"
  errorMessage := fun _ => "TypeError"

/-! ## Effects of the gateway helpers -/

theorem sendTelegramMessage_world (rt : Runtime) (c : JsValue) (m : String) (r : JsValue)
    (w : World) :
    (sendTelegramMessage rt c m r w).2 =
      { w with posts := w.posts ++ [.sendMessage c m (if r.truthy then some r else none)] } := by
  simp only [sendTelegramMessage, axiosPost]
  cases rt.post w.posts.length <;> rfl

theorem sendTelegramMessage_result (rt : Runtime) (c : JsValue) (m : String) (r : JsValue)
    (w : World) :
    (sendTelegramMessage rt c m r w).1 =
      match rt.post w.posts.length with
      | .ok data => .success data
      | .error msg => .failure msg := by
  simp only [sendTelegramMessage, axiosPost]
  cases rt.post w.posts.length <;> rfl

theorem sendTelegramPhoto_world (rt : Runtime) (c : JsValue) (u cap : String) (w : World) :
    (sendTelegramPhoto rt c u cap w).2 =
      { w with posts := w.posts ++ [.sendPhoto c u cap] } := by
  simp only [sendTelegramPhoto, axiosPost]
  cases rt.post w.posts.length <;> rfl

theorem sendTelegramLocation_world (rt : Runtime) (c : JsValue) (lat lng : ℚ) (w : World) :
    (sendTelegramLocation rt c lat lng w).2 =
      { w with posts := w.posts ++ [.sendLocation c lat lng] } := by
  simp only [sendTelegramLocation, axiosPost]
  cases rt.post w.posts.length <;> rfl

/-! ## The `switch` of `handleCommand` -/

/-- A command that matches no `case` label runs the `default` branch. -/
theorem handleCommand_default (rt : Runtime) (c : JsValue) (command : String) (m : JsValue)
    (w : World) (h : command ∉ caseLabels) :
    handleCommand rt c command m w =
      if startsWith command "/sms" then
        if (split command ' ').length ≥ 3 then
          (sendTelegramMessage rt c
            (smsSentText ((split command ' ').getD 1 "") (join ((split command ' ').drop 2) " "))
            m w).2
        else
          (sendTelegramMessage rt c smsUsageText m w).2
      else if startsWith command "/call" then
        if (split command ' ').length ≥ 2 then
          (sendTelegramMessage rt c (callingText ((split command ' ').getD 1 "")) m w).2
        else
          (sendTelegramMessage rt c callUsageText m w).2
      else
        (sendTelegramMessage rt c unknownCommandText m w).2 := by
  simp only [caseLabels, List.mem_cons, List.mem_singleton, not_or, List.not_mem_nil,
    not_false_eq_true, and_true] at h
  obtain ⟨h1, h2, h3, h4, h5, h6, h7, h8, h9, h10, h11, h12⟩ := h
  unfold handleCommand
  rw [if_neg h1, if_neg h2, if_neg h3, if_neg h4, if_neg h5, if_neg h6, if_neg h7, if_neg h8,
    if_neg h9, if_neg h10, if_neg h11, if_neg h12]

/-- No `case` label begins with `/sms`. -/
theorem not_caseLabel_of_sms (command : String) (h : startsWith command "/sms" = true) :
    command ∉ caseLabels := by
  intro hm
  simp only [caseLabels, List.mem_cons, List.mem_singleton, List.not_mem_nil, or_false] at hm
  rcases hm with rfl | rfl | rfl | rfl | rfl | rfl | rfl | rfl | rfl | rfl | rfl | rfl <;>
    exact absurd h (by decide)

/-- No `case` label begins with `/call`. -/
theorem not_caseLabel_of_call (command : String) (h : startsWith command "/call" = true) :
    command ∉ caseLabels := by
  intro hm
  simp only [caseLabels, List.mem_cons, List.mem_singleton, List.not_mem_nil, or_false] at hm
  rcases hm with rfl | rfl | rfl | rfl | rfl | rfl | rfl | rfl | rfl | rfl | rfl | rfl <;>
    exact absurd h (by decide)

/-- Everything `handleCommand` sends or schedules is addressed to `chatId`. -/
theorem handleCommand_effects (rt : Runtime) (chatId : JsValue) (command : String)
    (messageId : JsValue) (w : World) :
    ∃ sent scheduled,
      (handleCommand rt chatId command messageId w).posts = w.posts ++ sent ∧
      (handleCommand rt chatId command messageId w).timers = w.timers ++ scheduled ∧
      (∀ p ∈ sent, p.target = some chatId) ∧
      (∀ t ∈ scheduled, t.task.target = chatId) := by
  by_cases hm : command ∈ caseLabels
  · simp only [caseLabels, List.mem_cons, List.mem_singleton, List.not_mem_nil, or_false] at hm
    rcases hm with rfl | rfl | rfl | rfl | rfl | rfl | rfl | rfl | rfl | rfl | rfl | rfl <;>
      simp [handleCommand, sendTelegramMessage_world, sendTelegramLocation_world, setTimeout,
        mathRandom, HttpPost.target, Deferred.target]
  · rw [handleCommand_default rt chatId command messageId w hm]
    split_ifs <;> simp [sendTelegramMessage_world, HttpPost.target]


/-- A send without a reply target carries no `reply_to_message_id`. -/
theorem sendTelegramMessage_world_null (rt : Runtime) (c : JsValue) (m : String) (w : World) :
    (sendTelegramMessage rt c m .null w).2 =
      { w with posts := w.posts ++ [.sendMessage c m none] } := by
  rw [sendTelegramMessage_world]
  rfl

/-- A timer that fires performs exactly one POST, addressed to the target of its task. -/
theorem Deferred.run_posts (rt : Runtime) (d : Deferred) (w : World) :
    ∃ p, (d.run rt w).posts = w.posts ++ [p] ∧ p.target = some d.target ∧
      (d.run rt w).timers = w.timers := by
  cases d <;>
    simp [Deferred.run, sendTelegramMessage_world, sendTelegramPhoto_world, HttpPost.target,
      Deferred.target]

/-- What `handleMessage` sends and schedules. -/
theorem handleMessage_effects (ids : List String) (rt : Runtime) (chat : Option Chat)
    (text messageId : JsValue) (w : World) :
    ∃ sent scheduled,
      (handleMessage ids rt ⟨chat, text, messageId⟩ w).2.posts = w.posts ++ sent ∧
      (handleMessage ids rt ⟨chat, text, messageId⟩ w).2.timers = w.timers ++ scheduled ∧
      (∀ p ∈ sent,
        (∃ t, p.target = some t ∧ targetAuthorized ids t = true) ∨
        (∃ c, chat = some c ∧ targetAuthorized ids c.id = false ∧
          p = .sendMessage c.id notAuthorizedText none)) ∧
      (∀ t ∈ scheduled, targetAuthorized ids t.task.target = true) := by
  cases chat with
  | none => exact ⟨[], [], by simp [handleMessage]⟩
  | some c =>
    cases hs : c.id.toString? with
    | none => exact ⟨[], [], by simp [handleMessage, hs]⟩
    | some s =>
      by_cases hmem : s ∈ ids
      · have hauth : targetAuthorized ids c.id = true := by simp [targetAuthorized, hs, hmem]
        by_cases htext : ∃ t, (if text.truthy then text else .string "") = .string t
        · obtain ⟨t, ht⟩ := htext
          by_cases hslash : startsWith t "/" = true
          · obtain ⟨sent, scheduled, h1, h2, h3, h4⟩ :=
              handleCommand_effects rt c.id t messageId w
            refine ⟨sent, scheduled, ?_, ?_, ?_, ?_⟩
            · simpa [handleMessage, hs, hmem, ht, hslash] using h1
            · simpa [handleMessage, hs, hmem, ht, hslash] using h2
            · intro p hp
              exact Or.inl ⟨c.id, h3 p hp, hauth⟩
            · intro t ht'
              rw [h4 t ht']
              exact hauth
          · refine ⟨[.sendMessage c.id notACommandText none], [], ?_, ?_, ?_, ?_⟩
            · simp [handleMessage, hs, hmem, ht, hslash, sendTelegramMessage_world_null]
            · simp [handleMessage, hs, hmem, ht, hslash, sendTelegramMessage_world_null]
            · intro p hp
              simp only [List.mem_singleton] at hp
              subst hp
              exact Or.inl ⟨c.id, rfl, hauth⟩
            · simp
        · refine ⟨[], [], ?_, ?_, by simp, by simp⟩
          · simp only [handleMessage, hs, hmem, not_true_eq_false, if_false]
            split
            · rename_i t ht
              exact absurd ⟨t, ht⟩ htext
            · simp
          · simp only [handleMessage, hs, hmem, not_true_eq_false, if_false]
            split
            · rename_i t ht
              exact absurd ⟨t, ht⟩ htext
            · simp
      · refine ⟨[.sendMessage c.id notAuthorizedText none], [], ?_, ?_, ?_, ?_⟩
        · simp [handleMessage, hs, hmem, sendTelegramMessage_world_null]
        · simp [handleMessage, hs, hmem, sendTelegramMessage_world_null]
        · intro p hp
          simp only [List.mem_singleton] at hp
          subst hp
          exact Or.inr ⟨c, rfl, by simp [targetAuthorized, hs, hmem], rfl⟩
        · simp

/-- The world a webhook update with a message leaves is the one `handleMessage` leaves. -/
theorem webhookTelegram_message_world (ids : List String) (rt : Runtime) (m : Message)
    (cq : Option CallbackQuery) (w : World) :
    (webhookTelegram ids rt ⟨some m, cq⟩ w).2 = (handleMessage ids rt m w).2 := by
  simp only [webhookTelegram]
  rcases handleMessage ids rt m w with ⟨_ | _, w1⟩ <;> rfl

/-! ## Cases of `POST /api/command` -/

/-- A falsy `telegram_chat_id` is answered 400 before anything else. -/
theorem apiCommand_falsy (ids : List String) (rt : Runtime) (body : CommandRequest)
    (w : World) (h : body.telegram_chat_id.truthy = false) :
    apiCommand ids rt body w = (⟨400, .failure "Telegram chat ID diperlukan"⟩, w) := by
  simp [apiCommand, apiCommandTry, h]

/-- A truthy `telegram_chat_id` whose string form is not listed is answered 403. -/
theorem apiCommand_unlisted (ids : List String) (rt : Runtime) (body : CommandRequest)
    (w : World) (s : String) (ht : body.telegram_chat_id.truthy = true)
    (hs : body.telegram_chat_id.toString? = some s) (hmem : s ∉ ids) :
    apiCommand ids rt body w = (⟨403, .failure "Chat ID tidak diizinkan"⟩, w) := by
  simp [apiCommand, apiCommandTry, ht, hs, hmem]

/-- A truthy `telegram_chat_id` whose string form is listed, with a command of text form
`c`, is forwarded in one `sendTelegramMessage` call, whose result decides the response. -/
theorem apiCommand_listed (ids : List String) (rt : Runtime) (body : CommandRequest)
    (w : World) (s c : String) (ht : body.telegram_chat_id.truthy = true)
    (hs : body.telegram_chat_id.toString? = some s) (hmem : s ∈ ids)
    (hc : body.command.render? = some c) :
    apiCommand ids rt body w =
      (match (sendTelegramMessage rt body.telegram_chat_id
                (webCommandText c body.data) .null w).1 with
        | .success _ => ⟨200, .success "Perintah berhasil dikirim"⟩
        | .failure error => ⟨500, .failure error⟩,
       { w with posts := w.posts ++
          [.sendMessage body.telegram_chat_id (webCommandText c body.data) none] }) := by
  have hw := sendTelegramMessage_world_null rt body.telegram_chat_id
    (webCommandText c body.data) w
  simp only [apiCommand, apiCommandTry, ht, hs, hmem, hc, not_true_eq_false, if_false]
  rcases hsend : sendTelegramMessage rt body.telegram_chat_id
    (webCommandText c body.data) .null w with ⟨_ | _, w1⟩ <;>
  · rw [hsend] at hw
    simp only at hw
    simp [hw]

/-- A listed identity with a command that has no text form raises a fault, answered 500,
and nothing is sent. -/
theorem apiCommand_command_fault (ids : List String) (rt : Runtime) (body : CommandRequest)
    (w : World) (s : String) (ht : body.telegram_chat_id.truthy = true)
    (hs : body.telegram_chat_id.toString? = some s) (hmem : s ∈ ids)
    (hc : body.command.render? = none) :
    apiCommand ids rt body w = (⟨500, .failure (rt.errorMessage .typeError)⟩, w) := by
  simp [apiCommand, apiCommandTry, ht, hs, hmem, hc]

/-- A truthy `telegram_chat_id` without a string form raises a fault, answered 500. -/
theorem apiCommand_fault (ids : List String) (rt : Runtime) (body : CommandRequest)
    (w : World) (ht : body.telegram_chat_id.truthy = true)
    (hs : body.telegram_chat_id.toString? = none) :
    apiCommand ids rt body w = (⟨500, .failure (rt.errorMessage .typeError)⟩, w) := by
  simp [apiCommand, apiCommandTry, ht, hs]

/-! ## Claims -/

/-- Claim C1, counterexample: with the list `["1"]`, a webhook message from chat `2` makes the
relay send a message to chat `2`, whose string form `"2"` is not on the list. -/
theorem unlisted_sender_is_messaged :
    webhookTelegram ["1"] sampleRuntime
        ⟨some ⟨some ⟨.number 2 (by decide)⟩, .string "hi", .number 7 (by decide)⟩, none⟩
        World.init
      = (⟨200, .text "OK"⟩,
          ⟨[.sendMessage (.number 2 (by decide)) notAuthorizedText none], [], 0⟩) ∧
    targetAuthorized ["1"] (.number 2 (by decide)) = false := by
  decide

/-- Claim C1, amended: for every list, runtime and request, every POST that the webhook handler
makes for an update with a message, and every send it schedules, is addressed to a target
whose string form is on the list, except the canned "not authorized" reply, which goes to the
unlisted sender itself; a scheduled send, when it fires, makes one POST to that same target;
and every POST of `/api/command` is addressed to a target whose string form is on the list. -/
theorem relay_targets_listed_or_rejection (ids : List String) (rt : Runtime) :
    (∀ (chat : Option Chat) (text messageId : JsValue) (cq : Option CallbackQuery) (w : World),
      ∃ sent scheduled,
        (webhookTelegram ids rt ⟨some ⟨chat, text, messageId⟩, cq⟩ w).2.posts = w.posts ++ sent ∧
        (webhookTelegram ids rt ⟨some ⟨chat, text, messageId⟩, cq⟩ w).2.timers
          = w.timers ++ scheduled ∧
        (∀ p ∈ sent,
          (∃ t, p.target = some t ∧ targetAuthorized ids t = true) ∨
          (∃ c, chat = some c ∧ targetAuthorized ids c.id = false ∧
            p = .sendMessage c.id notAuthorizedText none)) ∧
        (∀ t ∈ scheduled, targetAuthorized ids t.task.target = true ∧
          ∀ w1, ∃ p, (t.task.run rt w1).posts = w1.posts ++ [p] ∧
            p.target = some t.task.target)) ∧
    (∀ (body : CommandRequest) (w : World),
      ∃ sent,
        (apiCommand ids rt body w).2.posts = w.posts ++ sent ∧
        (apiCommand ids rt body w).2.timers = w.timers ∧
        ∀ p ∈ sent, ∃ t, p.target = some t ∧ targetAuthorized ids t = true) := by
  constructor
  · intro chat text messageId cq w
    obtain ⟨sent, scheduled, h1, h2, h3, h4⟩ := handleMessage_effects ids rt chat text messageId w
    refine ⟨sent, scheduled, ?_, ?_, h3, ?_⟩
    · rw [webhookTelegram_message_world]; exact h1
    · rw [webhookTelegram_message_world]; exact h2
    · intro t ht
      refine ⟨h4 t ht, fun w1 => ?_⟩
      obtain ⟨p, hp1, hp2, _⟩ := Deferred.run_posts rt t.task w1
      exact ⟨p, hp1, hp2⟩
  · intro body w
    cases ht : body.telegram_chat_id.truthy with
    | false => exact ⟨[], by simp [apiCommand_falsy ids rt body w ht]⟩
    | true =>
      cases hs : body.telegram_chat_id.toString? with
      | none => exact ⟨[], by simp [apiCommand_fault ids rt body w ht hs]⟩
      | some s =>
        by_cases hmem : s ∈ ids
        · cases hc : body.command.render? with
          | none => exact ⟨[], by simp [apiCommand_command_fault ids rt body w s ht hs hmem hc]⟩
          | some c =>
            refine ⟨[.sendMessage body.telegram_chat_id
              (webCommandText c body.data) none], ?_, ?_, ?_⟩
            · rw [apiCommand_listed ids rt body w s c ht hs hmem hc]
            · rw [apiCommand_listed ids rt body w s c ht hs hmem hc]
            · intro p hp
              simp only [List.mem_singleton] at hp
              subst hp
              exact ⟨body.telegram_chat_id, rfl, by simp [targetAuthorized, hs, hmem]⟩
        · exact ⟨[], by simp [apiCommand_unlisted ids rt body w s ht hs hmem]⟩

/-- Claim C2, counterexample: with the list `["123"]`, the identities `""` and `0` are not
on the list, yet `/api/command` answers 400, not 403. -/
theorem unlisted_falsy_identity_gets_400 :
    apiCommand ["123"] sampleRuntime ⟨.string "battery", .falsy, .string ""⟩ World.init
      = (⟨400, .failure "Telegram chat ID diperlukan"⟩, World.init) ∧
    apiCommand ["123"] sampleRuntime ⟨.string "battery", .falsy, .number 0 (by decide)⟩ World.init
      = (⟨400, .failure "Telegram chat ID diperlukan"⟩, World.init) ∧
    targetAuthorized ["123"] (.string "") = false ∧
    targetAuthorized ["123"] (.number 0 (by decide)) = false := by
  decide

/-- Claim C2, amended: for every request to `/api/command` whose `telegram_chat_id` is truthy
(not the empty string, not zero) and has a string form that is not on the list, the response is
403 with a `success: false` body and the world is unchanged: no POST is made. -/
theorem api_command_unlisted_403 (ids : List String) (rt : Runtime) (body : CommandRequest)
    (w : World) (s : String) (ht : body.telegram_chat_id.truthy = true)
    (hs : body.telegram_chat_id.toString? = some s) (hmem : s ∉ ids) :
    apiCommand ids rt body w = (⟨403, .failure "Chat ID tidak diizinkan"⟩, w) :=
  apiCommand_unlisted ids rt body w s ht hs hmem

/-- Claim C2, instance: the identity `456` against the list `["123"]`. -/
theorem api_command_unlisted_403_witness :
    apiCommand ["123"] sampleRuntime ⟨.string "battery", .falsy, .number 456 (by decide)⟩ World.init
      = (⟨403, .failure "Chat ID tidak diizinkan"⟩, World.init) :=
  api_command_unlisted_403 ["123"] sampleRuntime ⟨.string "battery", .falsy, .number 456 (by decide)⟩
    World.init "456" (by decide) (by decide) (by decide)

/-- Claim C3, counterexample: with `AUTHORIZED_CHAT_IDS=0` the list is `["0"]`; the numeric
identity `0` has the listed string form `"0"`, yet `/api/command` answers 400 and makes no
POST. And for the listed identity `"123"`, a command without a text form (an object whose
`toString` member is not callable) is answered 500 and makes no POST. -/
theorem listed_zero_identity_not_forwarded :
    AUTHORIZED_CHAT_IDS (some "0") = ["0"] ∧
    targetAuthorized ["0"] (.number 0 (by decide)) = true ∧
    apiCommand ["0"] sampleRuntime ⟨.string "battery", .falsy, .number 0 (by decide)⟩ World.init
      = (⟨400, .failure "Telegram chat ID diperlukan"⟩, World.init) ∧
    targetAuthorized ["123"] (.string "123") = true ∧
    apiCommand ["123"] sampleRuntime ⟨.object none, .falsy, .string "123"⟩ World.init
      = (⟨500, .failure (sampleRuntime.errorMessage .typeError)⟩, World.init) := by
  decide

/-- Claim C3, amended: for every truthy identity (not the empty string, not zero) whose string
form is on the list, every command that has a text form `c`, and every data, `/api/command`
makes exactly one POST, a `sendMessage` whose `chat_id` is the given identity and whose text
is the notification for `c` and the data, and schedules nothing. -/
theorem api_command_listed_one_send (ids : List String) (rt : Runtime) (body : CommandRequest)
    (w : World) (s c : String) (ht : body.telegram_chat_id.truthy = true)
    (hs : body.telegram_chat_id.toString? = some s) (hmem : s ∈ ids)
    (hc : body.command.render? = some c) :
    (apiCommand ids rt body w).2 =
      { w with posts := w.posts ++
          [.sendMessage body.telegram_chat_id (webCommandText c body.data) none] } := by
  rw [apiCommand_listed ids rt body w s c ht hs hmem hc]

/-- Claim C3, instance: the `call` command of the dashboard for the listed identity `"123"`. -/
theorem api_command_listed_one_send_witness :
    (apiCommand ["123"] sampleRuntime
        ⟨.string "call", .truthy 1 "\x7b\"number\":\"+62\"\x7d", .string "123"⟩ World.init).2
      = ⟨[.sendMessage (.string "123")
            "🖥️ <b>Perintah dari Web</b>\n\nPerintah: <code>call</code>\nData: <code>\x7b\"number\":\"+62\"\x7d</code>"
            none], [], 0⟩ :=
  api_command_listed_one_send ["123"] sampleRuntime
    ⟨.string "call", .truthy 1 "\x7b\"number\":\"+62\"\x7d", .string "123"⟩ World.init "123"
    "call" (by decide) (by decide) (by decide) (by decide)

/-- Claim C4: for every list, a `/api/command` request without `telegram_chat_id` is answered
400 with a `success: false` body and leaves the world unchanged (no POST), whatever the list
contains and whatever the command and the data are. -/
theorem api_command_missing_id_400 (ids : List String) (rt : Runtime) (command : JsValue)
    (data : DataField) (w : World) :
    apiCommand ids rt ⟨command, data, .undefined⟩ w
      = (⟨400, .failure "Telegram chat ID diperlukan"⟩, w) :=
  apiCommand_falsy ids rt ⟨command, data, .undefined⟩ w rfl

/-- Claim C5, counterexample: with the list `["0"]` the numeric identity `0` has a listed string
form, and the gateway would answer the forwarded message with success under one runtime and
with the failure `Network Error` under the other; yet `/api/command` answers 400 under both,
and no POST is made. And for the listed identity `"123"` with a command without a text form
the answer is 500 with the message of the fault although the gateway would succeed. -/
theorem listed_falsy_identity_ignores_gateway :
    targetAuthorized ["0"] (.number 0 (by decide)) = true ∧
    (sendTelegramMessage sampleRuntime (.number 0 (by decide))
        (webCommandText "battery" .falsy) .null World.init).1 = .success "ok" ∧
    apiCommand ["0"] sampleRuntime ⟨.string "battery", .falsy, .number 0 (by decide)⟩ World.init
      = (⟨400, .failure "Telegram chat ID diperlukan"⟩, World.init) ∧
    (sendTelegramMessage offlineRuntime (.number 0 (by decide))
        (webCommandText "battery" .falsy) .null World.init).1 = .failure "Network Error" ∧
    apiCommand ["0"] offlineRuntime ⟨.string "battery", .falsy, .number 0 (by decide)⟩ World.init
      = (⟨400, .failure "Telegram chat ID diperlukan"⟩, World.init) ∧
    sampleRuntime.post 0 = .ok "ok" ∧
    apiCommand ["123"] sampleRuntime ⟨.object none, .falsy, .string "123"⟩ World.init
      = (⟨500, .failure (sampleRuntime.errorMessage .typeError)⟩, World.init) := by
  decide

/-- Claim C5, amended: for every `/api/command` request whose identity is truthy (not the empty
string, not zero) with a listed string form and whose command has a text form `c`, the handler
makes exactly one gateway call, the `sendMessage` of the notification to the identity, and the
result of that call decides the response: failure with message `e` gives 500 with
`success: false, error: e`; success gives 200 with `success: true` and the message. -/
theorem api_command_response_follows_gateway (ids : List String) (rt : Runtime)
    (body : CommandRequest) (w : World) (s c : String)
    (ht : body.telegram_chat_id.truthy = true)
    (hs : body.telegram_chat_id.toString? = some s) (hmem : s ∈ ids)
    (hc : body.command.render? = some c) :
    (apiCommand ids rt body w).2.posts = w.posts ++
      [.sendMessage body.telegram_chat_id (webCommandText c body.data) none] ∧
    (∀ e, (sendTelegramMessage rt body.telegram_chat_id
            (webCommandText c body.data) .null w).1 = .failure e →
        (apiCommand ids rt body w).1 = ⟨500, .failure e⟩) ∧
    (∀ d, (sendTelegramMessage rt body.telegram_chat_id
            (webCommandText c body.data) .null w).1 = .success d →
        (apiCommand ids rt body w).1 = ⟨200, .success "Perintah berhasil dikirim"⟩) ∧
    (∀ e, rt.post w.posts.length = .error e →
        (apiCommand ids rt body w).1 = ⟨500, .failure e⟩) ∧
    (∀ d, rt.post w.posts.length = .ok d →
        (apiCommand ids rt body w).1 = ⟨200, .success "Perintah berhasil dikirim"⟩) := by
  rw [apiCommand_listed ids rt body w s c ht hs hmem hc]
  refine ⟨rfl, ?_, ?_, ?_, ?_⟩
  · intro e he
    simp only [he]
  · intro d hd
    simp only [hd]
  · intro e he
    simp only [sendTelegramMessage_result, he]
  · intro d hd
    simp only [sendTelegramMessage_result, hd]

/-- Claim C5, instances: a failing and a succeeding gateway. -/
theorem api_command_response_follows_gateway_witness :
    (apiCommand ["123"] offlineRuntime ⟨.string "battery", .falsy, .string "123"⟩ World.init).1
      = ⟨500, .failure "Network Error"⟩ ∧
    (apiCommand ["123"] sampleRuntime ⟨.string "battery", .falsy, .string "123"⟩ World.init).1
      = ⟨200, .success "Perintah berhasil dikirim"⟩ :=
  ⟨(api_command_response_follows_gateway ["123"] offlineRuntime
      ⟨.string "battery", .falsy, .string "123"⟩ World.init "123" "battery"
      (by decide) (by decide) (by decide) (by decide)).2.2.2.1 "Network Error" (by decide),
   (api_command_response_follows_gateway ["123"] sampleRuntime
      ⟨.string "battery", .falsy, .string "123"⟩ World.init "123" "battery"
      (by decide) (by decide) (by decide) (by decide)).2.2.2.2 "ok" (by decide)⟩

/-- Claim C6: for every webhook update with a message whose sender chat id has a string form
that is not on the list, whatever the text, the handler answers 200 "OK" and the only effect is
one `sendMessage` of the canned "not authorized" reply to the sender: no other POST, no
scheduled send, no random draw. -/
theorem webhook_unlisted_sender_rejected (ids : List String) (rt : Runtime) (chat : Chat)
    (text messageId : JsValue) (cq : Option CallbackQuery) (w : World) (s : String)
    (hs : chat.id.toString? = some s) (hmem : s ∉ ids) :
    webhookTelegram ids rt ⟨some ⟨some chat, text, messageId⟩, cq⟩ w
      = (⟨200, .text "OK"⟩,
          { w with posts := w.posts ++ [.sendMessage chat.id notAuthorizedText none] }) := by
  simp [webhookTelegram, handleMessage, hs, hmem, sendTelegramMessage_world_null]

/-- Claim C6, instance: `/reboot` from the unlisted chat `2`. -/
theorem webhook_unlisted_sender_rejected_witness :
    webhookTelegram ["1"] sampleRuntime
        ⟨some ⟨some ⟨.number 2 (by decide)⟩, .string "/reboot", .number 7 (by decide)⟩, none⟩
        World.init
      = (⟨200, .text "OK"⟩,
          ⟨[.sendMessage (.number 2 (by decide)) notAuthorizedText none], [], 0⟩) :=
  webhook_unlisted_sender_rejected ["1"] sampleRuntime ⟨.number 2 (by decide)⟩
    (.string "/reboot") (.number 7 (by decide)) none World.init "2" (by decide) (by decide)


/-! ## Commands with arguments -/

/-- A string that starts with `pre` consists of the characters of `pre` and a rest. -/
theorem startsWith_data (s pre : String) (h : startsWith s pre = true) :
    ∃ t, s.data = pre.data ++ t := by
  unfold startsWith at h
  rw [ List.isPrefixOf_iff_prefix] at h
  obtain ⟨t, ht⟩ := h
  exact ⟨t, ht.symm⟩

/-- The first piece of a split is an initial segment of the characters. -/
theorem splitChars_head (sep : Char) (cs : List Char) :
    ∃ p ps t, splitChars sep cs = p :: ps ∧ cs = p ++ t := by
  induction cs with
  | nil => exact ⟨[], [], [], rfl, rfl⟩
  | cons c cs ih =>
    obtain ⟨p, ps, t, h1, h2⟩ := ih
    by_cases hc : c = sep
    · exact ⟨[], splitChars sep cs, c :: cs, by simp [splitChars, hc], rfl⟩
    · exact ⟨c :: p, ps, t, by simp [splitChars, hc, h1], by simp [h2]⟩

/-- Every text begins with its command token. -/
theorem startsWith_commandToken (text : String) :
    startsWith text (commandToken text) = true := by
  obtain ⟨p, ps, t, h1, h2⟩ := splitChars_head ' ' text.data
  simp only [startsWith, commandToken, split, h1, List.map_cons, List.headD_cons]
  rw [ List.isPrefixOf_iff_prefix]
  exact ⟨t, h2.symm⟩

/-- What `handleMessage` does for a listed sender and a text that starts with `/`. -/
theorem handleMessage_command (ids : List String) (rt : Runtime) (chatId : JsValue)
    (command : String) (messageId : JsValue) (w : World) (s : String)
    (hs : chatId.toString? = some s) (hmem : s ∈ ids)
    (hslash : startsWith command "/" = true) :
    handleMessage ids rt ⟨some ⟨chatId⟩, .string command, messageId⟩ w
      = (.ok (), handleCommand rt chatId command messageId w) := by
  have hne : command ≠ "" := by
    rintro rfl
    exact absurd hslash (by decide)
  simp [handleMessage, hs, hmem, JsValue.truthy, hne, hslash]

/-- What `handleMessage` does for a listed sender and a text that does not start with `/`. -/
theorem handleMessage_not_command (ids : List String) (rt : Runtime) (chatId : JsValue)
    (text : String) (messageId : JsValue) (w : World) (s : String)
    (hs : chatId.toString? = some s) (hmem : s ∈ ids)
    (hslash : startsWith text "/" = false) :
    handleMessage ids rt ⟨some ⟨chatId⟩, .string text, messageId⟩ w
      = (.ok (), { w with posts := w.posts ++ [.sendMessage chatId notACommandText none] }) := by
  by_cases hne : text = ""
  · subst hne
    simp [handleMessage, hs, hmem, JsValue.truthy, sendTelegramMessage_world_null, startsWith]
  · simp [handleMessage, hs, hmem, JsValue.truthy, hne, hslash, sendTelegramMessage_world_null]

/-- The "SMS sent" reply is never the `/sms` usage hint. -/
theorem smsSentText_ne_smsUsageText (number message : String) :
    smsSentText number message ≠ smsUsageText := by
  intro h
  have h1 := congrArg (fun s => s.data.head?) h
  simp [smsSentText, smsUsageText, String.data_append] at h1

/-- Claim C7: for every listed sender and every text that begins with `/sms`, the handler makes
exactly one POST. With at least 2 arguments after the command token it is the "SMS sent" reply,
which shows the first argument as the number (after `Ke: `) and the remaining arguments joined
with single spaces as the body (after `Pesan: `); with fewer arguments it is the `/sms` usage
hint. The "SMS sent" reply is never equal to the usage hint. -/
theorem sms_command_reply (ids : List String) (rt : Runtime) (chatId : JsValue)
    (command : String) (messageId : JsValue) (w : World) (s : String)
    (hs : chatId.toString? = some s) (hmem : s ∈ ids)
    (hsms : startsWith command "/sms" = true) :
    (2 ≤ (commandArgs command).length →
      handleMessage ids rt ⟨some ⟨chatId⟩, .string command, messageId⟩ w
        = (.ok (), { w with posts := w.posts ++
            [.sendMessage chatId
              ("📱 <b>SMS Terkirim</b>\n\n" ++
                "Ke: " ++ (commandArgs command).getD 0 "" ++ "\n" ++
                "Pesan: " ++ " ".intercalate ((commandArgs command).drop 1))
              (if messageId.truthy then some messageId else none)] })) ∧
    ((commandArgs command).length < 2 →
      handleMessage ids rt ⟨some ⟨chatId⟩, .string command, messageId⟩ w
        = (.ok (), { w with posts := w.posts ++
            [.sendMessage chatId
              "Format: /sms [nomor] [pesan]\nContoh: /sms +628123456789 Halo, ini pesan tes"
              (if messageId.truthy then some messageId else none)] })) ∧
    (∀ number body : String,
      "📱 <b>SMS Terkirim</b>\n\n" ++ "Ke: " ++ number ++ "\n" ++ "Pesan: " ++ body ≠
        "Format: /sms [nomor] [pesan]\nContoh: /sms +628123456789 Halo, ini pesan tes") := by
  have hslash : startsWith command "/" = true := by
    obtain ⟨t, ht⟩ := startsWith_data command "/sms" hsms
    simp [startsWith, ht]
  rw [handleMessage_command ids rt chatId command messageId w s hs hmem hslash,
    handleCommand_default rt chatId command messageId w (not_caseLabel_of_sms command hsms),
    if_pos hsms]
  unfold commandArgs
  refine ⟨?_, ?_, fun number body => smsSentText_ne_smsUsageText number body⟩ <;>
  · rcases split command ' ' with _ | ⟨a, _ | ⟨b, _ | ⟨c, rest⟩⟩⟩ <;>
      simp [sendTelegramMessage_world, smsSentText, smsUsageText, join]

/-- Claim C7, instances: `/sms +6281234 hello world` and `/sms +6281234` from the listed
chat `42`. -/
theorem sms_command_reply_witness :
    handleMessage ["42"] sampleRuntime
        ⟨some ⟨.number 42 (by decide)⟩, .string "/sms +6281234 hello world",
          .number 7 (by decide)⟩ World.init
      = (.ok (), ⟨[.sendMessage (.number 42 (by decide))
            "📱 <b>SMS Terkirim</b>\n\nKe: +6281234\nPesan: hello world"
            (some (.number 7 (by decide)))], [], 0⟩) ∧
    handleMessage ["42"] sampleRuntime
        ⟨some ⟨.number 42 (by decide)⟩, .string "/sms +6281234", .number 7 (by decide)⟩
        World.init
      = (.ok (), ⟨[.sendMessage (.number 42 (by decide))
            "Format: /sms [nomor] [pesan]\nContoh: /sms +628123456789 Halo, ini pesan tes"
            (some (.number 7 (by decide)))], [], 0⟩) :=
  ⟨(sms_command_reply ["42"] sampleRuntime (.number 42 (by decide))
      "/sms +6281234 hello world" (.number 7 (by decide)) World.init "42"
      (by decide) (by decide) (by decide)).1 (by decide),
   (sms_command_reply ["42"] sampleRuntime (.number 42 (by decide))
      "/sms +6281234" (.number 7 (by decide)) World.init "42"
      (by decide) (by decide) (by decide)).2.1 (by decide)⟩

/-- The "calling" reply is never the `/call` usage hint. -/
theorem callingText_ne_callUsageText (number : String) : callingText number ≠ callUsageText := by
  intro h
  have h1 := congrArg (fun s => s.data.head?) h
  simp [callingText, callUsageText, String.data_append] at h1

/-- Claim C8, counterexample: `/call +6281234 extra` has two arguments after the token, and
`handleCommand` still produces the calling reply for `+6281234`. -/
theorem call_with_two_arguments_calls :
    commandToken "/call +6281234 extra" = "/call" ∧
    commandArgs "/call +6281234 extra" = ["+6281234", "extra"] ∧
    handleCommand sampleRuntime (.number 42 (by decide)) "/call +6281234 extra"
        (.number 7 (by decide)) World.init
      = ⟨[.sendMessage (.number 42 (by decide)) (callingText "+6281234")
            (some (.number 7 (by decide)))], [], 0⟩ := by
  decide

/-- Claim C8, amended: for every text that begins with `/call`, `handleCommand` makes exactly
one POST: the calling reply, with number equal to the first argument, when at least one
argument follows the command token (further arguments are ignored), and the `/call` usage hint
when none follows; the two replies are different, so the calling reply is produced if and only
if at least one argument follows. A text whose command token is `/call` begins with `/call`
(`startsWith_commandToken`). -/
theorem call_command_reply (rt : Runtime) (chatId : JsValue) (command : String)
    (messageId : JsValue) (w : World) (hcall : startsWith command "/call" = true) :
    (1 ≤ (commandArgs command).length →
      handleCommand rt chatId command messageId w
        = { w with posts := w.posts ++
            [.sendMessage chatId (callingText ((commandArgs command).getD 0 ""))
              (if messageId.truthy then some messageId else none)] }) ∧
    ((commandArgs command).length = 0 →
      handleCommand rt chatId command messageId w
        = { w with posts := w.posts ++
            [.sendMessage chatId callUsageText
              (if messageId.truthy then some messageId else none)] }) ∧
    (∀ number, callingText number ≠ callUsageText) := by
  have hsms : startsWith command "/sms" = false := by
    obtain ⟨t, ht⟩ := startsWith_data command "/call" hcall
    simp only [startsWith, ht]
    rfl
  rw [handleCommand_default rt chatId command messageId w (not_caseLabel_of_call command hcall),
    hsms, if_pos hcall]
  unfold commandArgs
  refine ⟨?_, ?_, callingText_ne_callUsageText⟩ <;>
  · rcases split command ' ' with _ | ⟨a, _ | ⟨b, rest⟩⟩ <;>
      simp [sendTelegramMessage_world]

/-- Claim C8, instances: `/call +6281234` and `/call`. -/
theorem call_command_reply_witness :
    handleCommand sampleRuntime (.number 42 (by decide)) "/call +6281234"
        (.number 7 (by decide)) World.init
      = ⟨[.sendMessage (.number 42 (by decide)) (callingText "+6281234")
            (some (.number 7 (by decide)))], [], 0⟩ ∧
    handleCommand sampleRuntime (.number 42 (by decide)) "/call"
        (.number 7 (by decide)) World.init
      = ⟨[.sendMessage (.number 42 (by decide)) callUsageText
            (some (.number 7 (by decide)))], [], 0⟩ :=
  ⟨(call_command_reply sampleRuntime (.number 42 (by decide)) "/call +6281234"
      (.number 7 (by decide)) World.init (by decide)).1 (by decide),
   (call_command_reply sampleRuntime (.number 42 (by decide)) "/call"
      (.number 7 (by decide)) World.init (by decide)).2.1 (by decide)⟩

/-- Claim C9: for every listed sender, a message whose text does not start with `/`, or that
has no text, gets exactly one POST, the generic "unrecognized" reply; the text `/bogus` gets
the "command not recognized" reply; and the two reply bodies are different. -/
theorem non_command_reply (ids : List String) (rt : Runtime) (chatId : JsValue)
    (messageId : JsValue) (w : World) (s : String)
    (hs : chatId.toString? = some s) (hmem : s ∈ ids) :
    (∀ text, startsWith text "/" = false →
      handleMessage ids rt ⟨some ⟨chatId⟩, .string text, messageId⟩ w
        = (.ok (), { w with posts := w.posts ++
            [.sendMessage chatId notACommandText none] })) ∧
    handleMessage ids rt ⟨some ⟨chatId⟩, .undefined, messageId⟩ w
      = (.ok (), { w with posts := w.posts ++ [.sendMessage chatId notACommandText none] }) ∧
    handleMessage ids rt ⟨some ⟨chatId⟩, .string "/bogus", messageId⟩ w
      = (.ok (), { w with posts := w.posts ++
          [.sendMessage chatId unknownCommandText
            (if messageId.truthy then some messageId else none)] }) ∧
    notACommandText ≠ unknownCommandText := by
  refine ⟨fun text ht => handleMessage_not_command ids rt chatId text messageId w s hs hmem ht,
    ?_, ?_, by decide⟩
  · simp [handleMessage, hs, hmem, JsValue.truthy, sendTelegramMessage_world_null, startsWith]
  · rw [handleMessage_command ids rt chatId "/bogus" messageId w s hs hmem (by decide),
      handleCommand_default rt chatId "/bogus" messageId w (by decide)]
    simp [sendTelegramMessage_world, startsWith]

/-- Claim C9, instance: `random text` from the listed chat `42`. -/
theorem non_command_reply_witness :
    handleMessage ["42"] sampleRuntime
        ⟨some ⟨.number 42 (by decide)⟩, .string "random text", .number 7 (by decide)⟩
        World.init
      = (.ok (), ⟨[.sendMessage (.number 42 (by decide)) notACommandText none], [], 0⟩) :=
  (non_command_reply ["42"] sampleRuntime (.number 42 (by decide)) (.number 7 (by decide))
    World.init "42" (by decide) (by decide)).1 "random text" (by decide)

/-- The command token of a `case` label is a known command. -/
theorem commandToken_of_caseLabel (command : String) (h : command ∈ caseLabels) :
    commandToken command ∈ knownCommands := by
  simp only [caseLabels, List.mem_cons, List.mem_singleton, List.not_mem_nil, or_false] at h
  rcases h with rfl | rfl | rfl | rfl | rfl | rfl | rfl | rfl | rfl | rfl | rfl | rfl <;>
    decide

/-- Claim C10, counterexample: `/smsfoo` starts with `/`, its command token `/smsfoo` is not
one of the fourteen commands, and `handleCommand` sends the `/sms` usage hint, which is not
the "command not recognized" reply. -/
theorem smsfoo_gets_usage_hint :
    startsWith "/smsfoo" "/" = true ∧
    commandToken "/smsfoo" = "/smsfoo" ∧
    "/smsfoo" ∉ knownCommands ∧
    handleCommand sampleRuntime (.number 42 (by decide)) "/smsfoo" (.number 7 (by decide))
        World.init
      = ⟨[.sendMessage (.number 42 (by decide)) smsUsageText
            (some (.number 7 (by decide)))], [], 0⟩ ∧
    smsUsageText ≠ unknownCommandText := by
  decide

/-- Claim C10, amended: for every text whose command token is not one of the fourteen commands
and which does not begin with the characters `/sms` or `/call`, `handleCommand` makes exactly
one POST, the generic "command not recognized" reply, and does nothing else. -/
theorem unknown_command_reply (rt : Runtime) (chatId : JsValue) (command : String)
    (messageId : JsValue) (w : World)
    (htoken : commandToken command ∉ knownCommands)
    (hsms : startsWith command "/sms" = false)
    (hcall : startsWith command "/call" = false) :
    handleCommand rt chatId command messageId w
      = { w with posts := w.posts ++
          [.sendMessage chatId unknownCommandText
            (if messageId.truthy then some messageId else none)] } := by
  have hlabel : command ∉ caseLabels := fun h => htoken (commandToken_of_caseLabel command h)
  rw [handleCommand_default rt chatId command messageId w hlabel, hsms, hcall]
  simp [sendTelegramMessage_world]

/-- Claim C10, instance: `/bogus`. -/
theorem unknown_command_reply_witness :
    handleCommand sampleRuntime (.number 42 (by decide)) "/bogus" (.number 7 (by decide))
        World.init
      = ⟨[.sendMessage (.number 42 (by decide)) unknownCommandText
            (some (.number 7 (by decide)))], [], 0⟩ :=
  unknown_command_reply sampleRuntime (.number 42 (by decide)) "/bogus" (.number 7 (by decide))
    World.init (by decide) (by decide) (by decide)

/-! ## The webhook endpoint -/

/-- The response of the webhook is chosen by the outcome of its `try` block. -/
theorem webhookTelegram_eq_try (ids : List String) (rt : Runtime) (update : Update)
    (w : World) :
    webhookTelegram ids rt update w =
      match webhookTry ids rt update w with
      | (.ok _, w1) => (⟨200, .text "OK"⟩, w1)
      | (.error _, w1) => (⟨500, .text "Error processing webhook"⟩, w1) := rfl

/-- A message without a chat object raises a fault. -/
theorem handleMessage_no_chat (ids : List String) (rt : Runtime) (text messageId : JsValue)
    (w : World) :
    handleMessage ids rt ⟨none, text, messageId⟩ w = (.error .typeError, w) := rfl

/-- A chat id without a string form raises a fault. -/
theorem handleMessage_no_string_form (ids : List String) (rt : Runtime) (chatId : JsValue)
    (text messageId : JsValue) (w : World) (hs : chatId.toString? = none) :
    handleMessage ids rt ⟨some ⟨chatId⟩, text, messageId⟩ w = (.error .typeError, w) := by
  simp [handleMessage, hs]

/-- A sender whose string form is not listed gets the canned rejection. -/
theorem handleMessage_unlisted (ids : List String) (rt : Runtime) (chatId : JsValue)
    (text messageId : JsValue) (w : World) (s : String) (hs : chatId.toString? = some s)
    (hmem : s ∉ ids) :
    handleMessage ids rt ⟨some ⟨chatId⟩, text, messageId⟩ w =
      (.ok (), { w with posts := w.posts ++ [.sendMessage chatId notAuthorizedText none] }) := by
  simp [handleMessage, hs, hmem, sendTelegramMessage_world_null]

/-- A sender whose string form is listed has the text handled. -/
theorem handleMessage_listed (ids : List String) (rt : Runtime) (chatId : JsValue)
    (text messageId : JsValue) (w : World) (s : String) (hs : chatId.toString? = some s)
    (hmem : s ∈ ids) :
    handleMessage ids rt ⟨some ⟨chatId⟩, text, messageId⟩ w =
      handleText rt chatId text messageId w := by
  simp only [handleMessage, handleText, hs, hmem, not_true_eq_false, if_false]

/-- Whether `handleText` completes does not depend on the runtime or on the world. -/
theorem handleText_outcome_indep (rt rt1 : Runtime) (chatId text messageId : JsValue)
    (w w1 : World) :
    (handleText rt chatId text messageId w).1 = (handleText rt1 chatId text messageId w1).1 := by
  unfold handleText
  cases h : (if text.truthy = true then text else JsValue.string "") with
  | string t => by_cases hs : startsWith t "/" = true <;> simp [hs]
  | _ => rfl

/-- Whether `handleMessage` completes does not depend on the runtime or on the world. -/
theorem handleMessage_outcome_indep (ids : List String) (rt rt1 : Runtime) (m : Message)
    (w w1 : World) :
    (handleMessage ids rt m w).1 = (handleMessage ids rt1 m w1).1 := by
  obtain ⟨chat, text, messageId⟩ := m
  cases chat with
  | none => rfl
  | some c =>
    obtain ⟨chatId⟩ := c
    cases hs : chatId.toString? with
    | none => simp [handleMessage_no_string_form, hs]
    | some s =>
      by_cases hmem : s ∈ ids
      · rw [handleMessage_listed ids rt chatId text messageId w s hs hmem,
          handleMessage_listed ids rt1 chatId text messageId w1 s hs hmem]
        exact handleText_outcome_indep rt rt1 chatId text messageId w w1
      · rw [handleMessage_unlisted ids rt chatId text messageId w s hs hmem,
          handleMessage_unlisted ids rt1 chatId text messageId w1 s hs hmem]

/-- Whether `handleCallbackQuery` completes does not depend on the runtime or on the world. -/
theorem handleCallbackQuery_outcome_indep (rt rt1 : Runtime) (cq : CallbackQuery)
    (w w1 : World) :
    (handleCallbackQuery rt cq w).1 = (handleCallbackQuery rt1 cq w1).1 := by
  obtain ⟨id, message, data⟩ := cq
  cases message with
  | none => rfl
  | some m =>
    obtain ⟨chat, text, messageId⟩ := m
    cases chat with
    | none => rfl
    | some c =>
      cases hd : data.render? with
      | none => simp [handleCallbackQuery, hd]
      | some d => simp [handleCallbackQuery, hd]

/-- Whether the `try` block completes does not depend on the runtime or on the world. -/
theorem webhookTry_outcome_indep (ids : List String) (rt rt1 : Runtime) (update : Update)
    (w w1 : World) :
    (webhookTry ids rt update w).1 = (webhookTry ids rt1 update w1).1 := by
  obtain ⟨message, cq⟩ := update
  cases message with
  | some m => exact handleMessage_outcome_indep ids rt rt1 m w w1
  | none =>
    cases cq with
    | some q => exact handleCallbackQuery_outcome_indep rt rt1 q w w1
    | none => rfl

/-- Claim C12: an update with neither a message nor a callback query is answered 200 "OK" and
leaves the world unchanged (no POST, nothing scheduled); for an update with a message the `try`
block is the run of `handleMessage` alone, the result does not depend on the callback query the
update may also carry, and no `answerCallbackQuery` POST is made. -/
theorem webhook_branches_exclusive (ids : List String) (rt : Runtime) :
    (∀ w, webhookTelegram ids rt ⟨none, none⟩ w = (⟨200, .text "OK"⟩, w)) ∧
    (∀ (m : Message) (cq : Option CallbackQuery) (w : World),
      webhookTry ids rt ⟨some m, cq⟩ w = handleMessage ids rt m w ∧
      webhookTelegram ids rt ⟨some m, cq⟩ w = webhookTelegram ids rt ⟨some m, none⟩ w ∧
      ∃ sent, (webhookTelegram ids rt ⟨some m, cq⟩ w).2.posts = w.posts ++ sent ∧
        ∀ p ∈ sent, p.kind ≠ .callbackAnswer) := by
  refine ⟨fun w => rfl, fun m cq w => ⟨rfl, rfl, ?_⟩⟩
  obtain ⟨chat, text, messageId⟩ := m
  obtain ⟨sent, scheduled, h1, _, h3, _⟩ := handleMessage_effects ids rt chat text messageId w
  refine ⟨sent, ?_, ?_⟩
  · rw [webhookTelegram_message_world]; exact h1
  · intro p hp hk
    rcases h3 p hp with ⟨t, ht, _⟩ | ⟨c, _, _, hc⟩
    · cases p <;> simp [HttpPost.kind, HttpPost.target] at hk ht
    · subst hc
      simp [HttpPost.kind] at hk

/-- Claim C13: for every update, runtime and world the webhook handler returns a response:
200 "OK" when its `try` block completes and 500 when the block raises a fault, and nothing
else; the world it leaves is the one the block leaves; the response is the same for every
behaviour of the gateway; a message without a chat object is answered 500; and a message
whose sender has a string form is answered 200 whenever the sender is not listed (the
rejection) or the text is a string or absent (any command, recognised or not). -/
theorem webhook_faults_caught (ids : List String) (rt : Runtime) (update : Update)
    (w : World) :
    (((webhookTry ids rt update w).1 = .ok () ∧
        (webhookTelegram ids rt update w).1 = ⟨200, .text "OK"⟩) ∨
      ((webhookTry ids rt update w).1 = .error .typeError ∧
        (webhookTelegram ids rt update w).1 = ⟨500, .text "Error processing webhook"⟩)) ∧
    (webhookTelegram ids rt update w).2 = (webhookTry ids rt update w).2 ∧
    (∀ (rt1 : Runtime) (w1 : World),
      (webhookTelegram ids rt1 update w1).1 = (webhookTelegram ids rt update w).1) ∧
    (∀ (text messageId : JsValue) (cq : Option CallbackQuery),
      webhookTelegram ids rt ⟨some ⟨none, text, messageId⟩, cq⟩ w
        = (⟨500, .text "Error processing webhook"⟩, w)) ∧
    (∀ (chatId text messageId : JsValue) (cq : Option CallbackQuery) (s : String),
      chatId.toString? = some s →
      (s ∉ ids ∨ ∃ t, (if text.truthy then text else .string "") = .string t) →
      (webhookTelegram ids rt ⟨some ⟨some ⟨chatId⟩, text, messageId⟩, cq⟩ w).1
        = ⟨200, .text "OK"⟩) := by
  have key : ∀ (r : Runtime) (v : World),
      (webhookTelegram ids r update v).1 =
        match (webhookTry ids r update v).1 with
        | .ok _ => ⟨200, .text "OK"⟩
        | .error _ => ⟨500, .text "Error processing webhook"⟩ := by
    intro r v
    rw [webhookTelegram_eq_try]
    rcases webhookTry ids r update v with ⟨_ | _, v1⟩ <;> rfl
  refine ⟨?_, ?_, ?_, fun text messageId cq => rfl, ?_⟩
  rotate_left 3
  · intro chatId text messageId cq s hs h
    simp only [webhookTelegram]
    by_cases hmem : s ∈ ids
    · rcases h with h | ⟨t, ht⟩
      · exact absurd hmem h
      · rw [handleMessage_listed ids rt chatId text messageId w s hs hmem]
        simp only [handleText, ht]
        by_cases hsl : startsWith t "/" = true <;> simp [hsl]
    · rw [handleMessage_unlisted ids rt chatId text messageId w s hs hmem]
  · rw [key rt w]
    rcases webhookTry ids rt update w with ⟨f | u, v1⟩
    · cases f
      exact Or.inr ⟨rfl, rfl⟩
    · exact Or.inl ⟨rfl, rfl⟩
  · rw [webhookTelegram_eq_try]
    rcases webhookTry ids rt update w with ⟨_ | _, v1⟩ <;> rfl
  · intro rt1 w1
    rw [key rt1 w1, key rt w, webhookTry_outcome_indep ids rt1 rt update w1 w]

/-! ## The health endpoint -/

/-- A split has one piece more than the text has separators. -/
theorem splitChars_length (sep : Char) (cs : List Char) :
    (splitChars sep cs).length = cs.count sep + 1 := by
  induction cs with
  | nil => rfl
  | cons c cs ih =>
    by_cases hc : c = sep
    · subst hc
      simp [splitChars, ih]
    · have hne : (c == sep) = false := by simpa using hc
      rcases hsp : splitChars sep cs with _ | ⟨p, ps⟩
      · rw [hsp] at ih
        simp at ih
      · rw [hsp] at ih
        simp [splitChars, hc, hsp, List.count_cons, hne] at ih ⊢
        exact ih

/-- Claim C14: for every value of the environment variable, `GET /health` answers 200 with
status "OK" and `authorized_chats` equal to the length of the configured list; that list is
empty when the variable is unset or empty, and otherwise it is the comma-split of the
variable, which has one entry more than the variable has commas. No request data and no
authorization check enter the answer. -/
theorem health_counts_configured_list (env : Option String) (rt : Runtime) :
    health (AUTHORIZED_CHAT_IDS env) rt
      = ⟨200, .health "OK" rt.now (AUTHORIZED_CHAT_IDS env).length⟩ ∧
    (AUTHORIZED_CHAT_IDS none).length = 0 ∧
    (AUTHORIZED_CHAT_IDS (some "")).length = 0 ∧
    (∀ v, v ≠ "" →
      AUTHORIZED_CHAT_IDS (some v) = split v ',' ∧
      (AUTHORIZED_CHAT_IDS (some v)).length = v.data.count ',' + 1) := by
  refine ⟨rfl, rfl, rfl, fun v hv => ?_⟩
  have h : AUTHORIZED_CHAT_IDS (some v) = split v ',' := by
    simp [AUTHORIZED_CHAT_IDS, hv]
  refine ⟨h, ?_⟩
  rw [h]
  simp [split, splitChars_length]

/-! ## The gateway helpers -/

/-- Claim C18: for every runtime, world and arguments, each of `sendTelegramMessage`,
`sendTelegramPhoto` and `sendTelegramLocation` returns a value (it never throws), adds exactly
one POST to the world and changes nothing else, and returns `success` with the data when the
POST succeeds and `failure` with the message of the failure when it fails. -/
theorem gateway_helpers_one_post (rt : Runtime) (w : World) :
    (∀ (c : JsValue) (m : String) (r : JsValue),
      sendTelegramMessage rt c m r w =
        (match rt.post w.posts.length with
          | .ok data => .success data
          | .error msg => .failure msg,
         { w with posts := w.posts ++
            [.sendMessage c m (if r.truthy then some r else none)] })) ∧
    (∀ (c : JsValue) (u cap : String),
      sendTelegramPhoto rt c u cap w =
        (match rt.post w.posts.length with
          | .ok data => .success data
          | .error msg => .failure msg,
         { w with posts := w.posts ++ [.sendPhoto c u cap] })) ∧
    (∀ (c : JsValue) (lat lng : ℚ),
      sendTelegramLocation rt c lat lng w =
        (match rt.post w.posts.length with
          | .ok data => .success data
          | .error msg => .failure msg,
         { w with posts := w.posts ++ [.sendLocation c lat lng] })) := by
  refine ⟨fun c m r => ?_, fun c u cap => ?_, fun c lat lng => ?_⟩
  · simp only [sendTelegramMessage, axiosPost]
    cases rt.post w.posts.length <;> rfl
  · simp only [sendTelegramPhoto, axiosPost]
    cases rt.post w.posts.length <;> rfl
  · simp only [sendTelegramLocation, axiosPost]
    cases rt.post w.posts.length <;> rfl

/-! ## Deferred follow-ups and simulated values -/

/-- Outside `/screenshot`, `/camera` and `/reboot`, `handleCommand` schedules nothing. -/
theorem handleCommand_timers_unchanged (rt : Runtime) (c : JsValue) (command : String)
    (m : JsValue) (w : World) (h1 : command ≠ "/screenshot") (h2 : command ≠ "/camera")
    (h3 : command ≠ "/reboot") :
    (handleCommand rt c command m w).timers = w.timers := by
  by_cases hm : command ∈ caseLabels
  · simp only [caseLabels, List.mem_cons, List.mem_singleton, List.not_mem_nil, or_false] at hm
    rcases hm with rfl | rfl | rfl | rfl | rfl | rfl | rfl | rfl | rfl | rfl | rfl | rfl
    all_goals first
      | exact absurd rfl h1
      | exact absurd rfl h2
      | exact absurd rfl h3
      | simp [handleCommand, sendTelegramMessage_world, sendTelegramLocation_world, mathRandom]
  · rw [handleCommand_default rt c command m w hm]
    split_ifs <;> simp [sendTelegramMessage_world]

/-- Claim C15: `/screenshot`, `/camera` and `/reboot` each make exactly one POST, the
acknowledgement, and schedule exactly one follow-up send to the same chat, after 2000 ms,
3000 ms and 5000 ms; `handleCommand` returns with the follow-up still pending (its POST is not
among the POSTs made), and for a listed sender the webhook answers 200 "OK" in that world;
every other command leaves the timers unchanged. -/
theorem deferred_follow_ups (rt : Runtime) (c m : JsValue) (w : World) :
    handleCommand rt c "/screenshot" m w =
      { w with
        posts := w.posts ++ [.sendMessage c "📸 Mengambil screenshot..."
          (if m.truthy then some m else none)],
        timers := w.timers ++ [⟨2000, .photo c
          "https://via.placeholder.com/400x800/2a5298/ffffff?text=Screenshot+Simulasi"
          "Screenshot perangkat"⟩] } ∧
    handleCommand rt c "/camera" m w =
      { w with
        posts := w.posts ++ [.sendMessage c "📷 Mengambil foto dari kamera..."
          (if m.truthy then some m else none)],
        timers := w.timers ++ [⟨3000, .photo c
          "https://via.placeholder.com/400x600/1e3c72/ffffff?text=Foto+Kamera+Simulasi"
          "Foto dari kamera perangkat"⟩] } ∧
    handleCommand rt c "/reboot" m w =
      { w with
        posts := w.posts ++ [.sendMessage c "🔄 Merestart perangkat..."
          (if m.truthy then some m else none)],
        timers := w.timers ++ [⟨5000, .message c "✅ Perangkat telah direstart." m⟩] } ∧
    (∀ command, command ≠ "/screenshot" → command ≠ "/camera" → command ≠ "/reboot" →
      (handleCommand rt c command m w).timers = w.timers) ∧
    (∀ (ids : List String) (s : String) (cq : Option CallbackQuery),
      c.toString? = some s → s ∈ ids →
      ∀ command ∈ ["/screenshot", "/camera", "/reboot"],
        webhookTelegram ids rt ⟨some ⟨some ⟨c⟩, .string command, m⟩, cq⟩ w
          = (⟨200, .text "OK"⟩, handleCommand rt c command m w)) := by
  refine ⟨?_, ?_, ?_, fun command h1 h2 h3 =>
    handleCommand_timers_unchanged rt c command m w h1 h2 h3, ?_⟩
  · simp [handleCommand, sendTelegramMessage_world, setTimeout]
  · simp [handleCommand, sendTelegramMessage_world, setTimeout]
  · simp [handleCommand, sendTelegramMessage_world, setTimeout]
  · intro ids s cq hs hmem command hc
    have hslash : startsWith command "/" = true := by
      simp only [List.mem_cons, List.mem_singleton, List.not_mem_nil, or_false] at hc
      rcases hc with rfl | rfl | rfl <;> decide
    simp only [webhookTelegram,
      handleMessage_command ids rt c command m w s hs hmem hslash]

/-! ### Doubles -/

/-- Rounding to the nearest integer stays between the floor and the floor plus one. -/
theorem roundHalfEven_cases (y : ℚ) : roundHalfEven y = ⌊y⌋ ∨ roundHalfEven y = ⌊y⌋ + 1 := by
  unfold roundHalfEven
  simp only
  split_ifs <;> simp

/-- Rounding to the nearest integer does not pass an integer above. -/
theorem roundHalfEven_le (y : ℚ) (M : ℤ) (h : y ≤ M) : roundHalfEven y ≤ M := by
  have hfl : ⌊y⌋ ≤ M := Int.floor_le_floor h |>.trans (by simp)
  rcases lt_or_eq_of_le hfl with hlt | heq
  · rcases roundHalfEven_cases y with h1 | h1 <;> omega
  · have hy : y = M := le_antisymm h (by rw [← heq]; exact Int.floor_le y)
    subst hy
    simp [roundHalfEven]

/-- Rounding to the nearest integer does not pass an integer below. -/
theorem le_roundHalfEven (y : ℚ) (M : ℤ) (h : (M : ℚ) ≤ y) : M ≤ roundHalfEven y := by
  have hfl : M ≤ ⌊y⌋ := Int.le_floor.mpr h
  rcases roundHalfEven_cases y with h1 | h1 <;> omega

/-- A value within a half of an integer rounds to it. -/
theorem roundHalfEven_eq (y : ℚ) (n : ℤ) (h1 : (n : ℚ) - 1 / 2 < y) (h2 : y < n + 1 / 2) :
    roundHalfEven y = n := by
  unfold roundHalfEven
  simp only
  by_cases hy : (n : ℚ) ≤ y
  · have hfl : ⌊y⌋ = n := Int.floor_eq_iff.mpr ⟨hy, by linarith⟩
    rw [hfl, if_pos (by linarith)]
  · have hfl : ⌊y⌋ = n - 1 := Int.floor_eq_iff.mpr ⟨by push_cast; linarith, by push_cast; linarith⟩
    rw [hfl]
    push_cast
    rw [if_neg (by linarith), if_pos (by linarith)]
    ring

/-- A value more than a half below an integer rounds below it. -/
theorem roundHalfEven_le_pred (y : ℚ) (M : ℤ) (h : y < M - 1 / 2) : roundHalfEven y ≤ M - 1 := by
  have hfl : ⌊y⌋ ≤ M - 1 := by
    rw [← Int.lt_add_one_iff, Int.floor_lt]
    push_cast
    linarith
  rcases lt_or_eq_of_le hfl with hlt | heq
  · rcases roundHalfEven_cases y with h1 | h1 <;> omega
  · have : roundHalfEven y = ⌊y⌋ := by
      unfold roundHalfEven
      simp only
      rw [if_pos]
      rw [heq]
      push_cast
      linarith
    omega


/-- The exponent of the last place at a magnitude between `2 ^ k` and `2 ^ (k + 1)`. -/
theorem ulpExp_of_mem (x : ℚ) (k : ℤ) (h1 : (2 : ℚ) ^ k ≤ |x|) (h2 : |x| < (2 : ℚ) ^ (k + 1)) :
    ulpExp x = max (k - 52) (-1074) := by
  have hpos : 0 < |x| := lt_of_lt_of_le (by positivity) h1
  have hlog : Int.log 2 |x| = k := by
    apply le_antisymm
    · have := (Int.lt_zpow_iff_log_lt (b := 2) (by norm_num) hpos (x := k + 1)).mp
        (by simpa using h2)
      omega
    · exact (Int.zpow_le_iff_le_log (b := 2) (by norm_num) hpos).mp (by simpa using h1)
  rw [ulpExp, hlog]

/-- The double nearest to a value of magnitude between `2 ^ k` and `2 ^ (k + 1)`, for a
normal exponent `k`. -/
theorem roundDouble_of_mem (x : ℚ) (k : ℤ) (hk : -1022 ≤ k) (h1 : (2 : ℚ) ^ k ≤ |x|)
    (h2 : |x| < (2 : ℚ) ^ (k + 1)) :
    roundDouble x = roundHalfEven (x / 2 ^ (k - 52)) * 2 ^ (k - 52) := by
  have he : ulpExp x = k - 52 := by
    rw [ulpExp_of_mem x k h1 h2]
    omega
  rw [roundDouble, he]

/-- Zero is a double. -/
theorem roundDouble_zero : roundDouble 0 = 0 := by
  simp [roundDouble, roundHalfEven]

/-- The double nearest to a non-negative value is non-negative. -/
theorem roundDouble_nonneg (x : ℚ) (h : 0 ≤ x) : 0 ≤ roundDouble x := by
  unfold roundDouble
  have hy : ((0 : ℤ) : ℚ) ≤ x / 2 ^ ulpExp x := by
    simpa using div_nonneg h (by positivity)
  have := le_roundHalfEven _ 0 hy
  have h2 : (0 : ℚ) ≤ (roundHalfEven (x / 2 ^ ulpExp x) : ℚ) := by exact_mod_cast this
  positivity

/-- Rounding to a double does not pass a power of two above. -/
theorem roundDouble_le_two_pow (x : ℚ) (k : ℤ) (hk : -1021 ≤ k) (h0 : 0 < x)
    (h : x < (2 : ℚ) ^ k) : roundDouble x ≤ (2 : ℚ) ^ k := by
  have hlog : Int.log 2 |x| < k := by
    rw [abs_of_pos h0]
    exact (Int.lt_zpow_iff_log_lt (b := 2) (by norm_num) h0).mp (by simpa using h)
  have he : ulpExp x ≤ k - 1 := by
    unfold ulpExp
    omega
  set e := ulpExp x with hedef
  have hnn : 0 ≤ k - e := by omega
  have hpow : (2 : ℚ) ^ k = ((2 ^ (k - e).toNat : ℤ) : ℚ) * 2 ^ e := by
    push_cast
    rw [← zpow_natCast, Int.toNat_of_nonneg hnn, ← zpow_add₀ (by norm_num : (2 : ℚ) ≠ 0)]
    congr 1
    omega
  have hy : x / 2 ^ e ≤ ((2 ^ (k - e).toNat : ℤ) : ℚ) := by
    rw [div_le_iff₀ (by positivity), ← hpow]
    exact h.le
  have hr := roundHalfEven_le _ _ hy
  have hr2 : (roundHalfEven (x / 2 ^ e) : ℚ) ≤ ((2 ^ (k - e).toNat : ℤ) : ℚ) := by
    exact_mod_cast hr
  unfold roundDouble
  rw [← hedef, hpow]
  exact mul_le_mul_of_nonneg_right hr2 (by positivity)

/-- Every value up to `100 - 100 / 2 ^ 53` rounds to a double below 100. -/
theorem roundDouble_lt_hundred (x : ℚ) (h0 : 0 ≤ x) (h : x ≤ 100 - 100 / 2 ^ 53) :
    roundDouble x < 100 := by
  rcases eq_or_lt_of_le h0 with hz | hpos
  · rw [← hz, roundDouble_zero]
    norm_num
  by_cases h64 : x < 64
  · have := roundDouble_le_two_pow x 6 (by norm_num) hpos (by norm_num; exact h64)
    norm_num at this
    linarith
  · push_neg at h64
    have hx : |x| = x := abs_of_pos hpos
    rw [roundDouble_of_mem x 6 (by norm_num) (by rw [hx]; norm_num; exact h64)
      (by rw [hx]; norm_num; linarith)]
    have hy : x / 2 ^ ((6 : ℤ) - 52) < ((7036874417766400 : ℤ) : ℚ) - 1 / 2 := by
      rw [div_lt_iff₀ (by positivity)]
      norm_num
      linarith
    have hr := roundHalfEven_le_pred _ _ hy
    have hr2 : (roundHalfEven (x / 2 ^ ((6 : ℤ) - 52)) : ℚ) ≤ ((7036874417766400 - 1 : ℤ) : ℚ) := by
      exact_mod_cast hr
    calc (roundHalfEven (x / 2 ^ ((6 : ℤ) - 52)) : ℚ) * 2 ^ ((6 : ℤ) - 52)
        ≤ ((7036874417766400 - 1 : ℤ) : ℚ) * 2 ^ ((6 : ℤ) - 52) :=
          mul_le_mul_of_nonneg_right hr2 (by positivity)
      _ < 100 := by norm_num

/-- A double below 1 is at most `1 - 1 / 2 ^ 53`. -/
theorem double_lt_one_le (r : ℚ) (hd : roundDouble r = r) (h1 : r < 1) :
    r ≤ 1 - 1 / 2 ^ 53 := by
  by_cases hhalf : r < 1 / 2
  · norm_num at hhalf ⊢
    linarith
  · push_neg at hhalf
    have hpos : 0 < r := by linarith
    have hx : |r| = r := abs_of_pos hpos
    have hrd := roundDouble_of_mem r (-1) (by norm_num) (by rw [hx]; norm_num; linarith)
      (by rw [hx]; norm_num; exact h1)
    rw [hd] at hrd
    set n := roundHalfEven (r / 2 ^ ((-1 : ℤ) - 52)) with hn
    have hlt : (n : ℚ) < ((9007199254740992 : ℤ) : ℚ) := by
      have : (n : ℚ) * 2 ^ ((-1 : ℤ) - 52) < 1 := by rw [← hrd]; exact h1
      norm_num at this ⊢
      linarith
    have hle : n ≤ 9007199254740992 - 1 := by
      have : n < 9007199254740992 := by exact_mod_cast hlt
      omega
    have hle2 : (n : ℚ) ≤ ((9007199254740992 - 1 : ℤ) : ℚ) := by exact_mod_cast hle
    rw [hrd]
    calc (n : ℚ) * 2 ^ ((-1 : ℤ) - 52)
        ≤ ((9007199254740992 - 1 : ℤ) : ℚ) * 2 ^ ((-1 : ℤ) - 52) :=
          mul_le_mul_of_nonneg_right hle2 (by positivity)
      _ = 1 - 1 / 2 ^ 53 := by norm_num

/-- The product of a double below 1 with 100 rounds to a double in `[0, 100)`. -/
theorem floor_fmul_hundred (r : ℚ) (hd : roundDouble r = r) (h0 : 0 ≤ r) (h1 : r < 1) :
    0 ≤ ⌊fmul r 100⌋ ∧ ⌊fmul r 100⌋ < 100 := by
  unfold fmul
  have hr := double_lt_one_le r hd h1
  constructor
  · exact Int.floor_nonneg.mpr (roundDouble_nonneg _ (by positivity))
  · rw [Int.floor_lt]
    push_cast
    exact roundDouble_lt_hundred _ (by positivity) (by linarith)

/-- The double nearest to 0.03 is `8646911284551352 / 2 ^ 58`. -/
theorem roundDouble_three_hundredths :
    roundDouble (3 / 100) = 8646911284551352 / 2 ^ 58 := by
  rw [roundDouble_of_mem (3 / 100) (-6) (by norm_num) (by norm_num [abs_of_pos])
    (by norm_num [abs_of_pos]),
    roundHalfEven_eq _ 8646911284551352 (by norm_num) (by norm_num)]
  norm_num

/-- That value is a double. -/
theorem roundDouble_sample : roundDouble (8646911284551352 / 2 ^ 58) = 8646911284551352 / 2 ^ 58 := by
  rw [roundDouble_of_mem _ (-6) (by norm_num) (by norm_num [abs_of_pos])
    (by norm_num [abs_of_pos]),
    roundHalfEven_eq _ 8646911284551352 (by norm_num) (by norm_num)]
  norm_num

/-- Its product with 100 is the double 3, although the exact product is below 3. -/
theorem fmul_sample :
    fmul (8646911284551352 / 2 ^ 58) 100 = 3 ∧ (8646911284551352 / 2 ^ 58 : ℚ) * 100 < 3 := by
  constructor
  · unfold fmul
    rw [roundDouble_of_mem _ 1 (by norm_num) (by norm_num [abs_of_pos])
      (by norm_num [abs_of_pos]),
      roundHalfEven_eq _ 6755399441055744 (by norm_num) (by norm_num)]
    norm_num
  · norm_num


/-- Claim C16: for every first draw `r` that is a double with `0 ≤ r < 1`, `/battery` makes
one POST whose text reports a level `p` with `0 ≤ p < 100`, namely the floor of the double
product of `r` and 100, and reports charging exactly when the next draw is above 0.5; two
draws are taken. -/
theorem battery_level_in_range (rt : Runtime) (c m : JsValue) (w : World)
    (hd : roundDouble (rt.random w.draws) = rt.random w.draws)
    (h0 : 0 ≤ rt.random w.draws) (h1 : rt.random w.draws < 1) :
    ∃ p : ℤ, p = ⌊roundDouble (rt.random w.draws * 100)⌋ ∧ 0 ≤ p ∧ p < 100 ∧
      handleCommand rt c "/battery" m w =
        { posts := w.posts ++
            [.sendMessage c
              ("🔋 <b>Status Baterai</b>\n" ++
                "Level: " ++ toString p ++ "%\n" ++
                "Status: " ++
                  (if rt.random (w.draws + 1) > 0.5 then "Sedang diisi" else "Tidak diisi") ++
                  "\n" ++
                "Kesehatan: Baik")
              (if m.truthy then some m else none)],
          timers := w.timers,
          draws := w.draws + 2 } := by
  obtain ⟨hp0, hp1⟩ := floor_fmul_hundred _ hd h0 h1
  refine ⟨⌊fmul (rt.random w.draws) 100⌋, rfl, hp0, hp1, ?_⟩
  by_cases hch : rt.random (w.draws + 1) > 0.5 <;>
    simp [handleCommand, sendTelegramMessage_world, mathRandom, batteryText, hch]

/-- Claim C16, instance: the first draw is the double nearest to 0.03 and the next draw is
`1/4`: the level reported is 3 (the exact product is below 3, the double product is 3), not
charging. -/
theorem battery_level_in_range_witness :
    handleCommand (drawsRuntime (8646911284551352 / 2 ^ 58) (1 / 4)) (.number 42 (by decide))
        "/battery" (.number 7 (by decide)) World.init =
      { posts := [.sendMessage (.number 42 (by decide))
            "🔋 <b>Status Baterai</b>\nLevel: 3%\nStatus: Tidak diisi\nKesehatan: Baik"
            (some (.number 7 (by decide)))],
        timers := [],
        draws := 2 } := by
  obtain ⟨p, hp, -, -, hw⟩ :=
    battery_level_in_range (drawsRuntime (8646911284551352 / 2 ^ 58) (1 / 4))
      (.number 42 (by decide)) (.number 7 (by decide)) World.init
      (by simpa [drawsRuntime, World.init] using roundDouble_sample)
      (by norm_num [drawsRuntime, World.init]) (by norm_num [drawsRuntime, World.init])
  have h3 : p = 3 := by
    rw [hp]
    have := fmul_sample.1
    unfold fmul at this
    simp [drawsRuntime, World.init, this]
  subst h3
  rw [hw]
  norm_num [drawsRuntime, World.init, JsValue.truthy]
  decide

/-! ## Targets of the chat path -/

/-- Everything `handleText` sends or schedules is addressed to `chatId`. -/
theorem handleText_effects (rt : Runtime) (chatId text messageId : JsValue) (w : World) :
    ∃ sent scheduled,
      (handleText rt chatId text messageId w).2.posts = w.posts ++ sent ∧
      (handleText rt chatId text messageId w).2.timers = w.timers ++ scheduled ∧
      (∀ p ∈ sent, p.target = some chatId) ∧
      (∀ t ∈ scheduled, t.task.target = chatId) := by
  unfold handleText
  cases h : (if text.truthy = true then text else JsValue.string "") with
  | string t =>
    by_cases hs : startsWith t "/" = true
    · simpa [hs] using handleCommand_effects rt chatId t messageId w
    · exact ⟨[.sendMessage chatId notACommandText none], [],
        by simp [hs, sendTelegramMessage_world_null],
        by simp [hs, sendTelegramMessage_world_null],
        by simp [HttpPost.target], by simp⟩
  | _ => exact ⟨[], [], by simp⟩

/-- Claim C19: for every listed sender, every text and every reply id, every POST that
`handleMessage` (with `handleCommand`) makes has the sender's chat id as its target, every send
it schedules is addressed to the sender's chat id, and a scheduled send that fires makes one
POST whose target is the sender's chat id. -/
theorem replies_go_to_sender (ids : List String) (rt : Runtime) (chatId text messageId : JsValue)
    (w : World) (s : String) (hs : chatId.toString? = some s) (hmem : s ∈ ids) :
    ∃ sent scheduled,
      (handleMessage ids rt ⟨some ⟨chatId⟩, text, messageId⟩ w).2.posts = w.posts ++ sent ∧
      (handleMessage ids rt ⟨some ⟨chatId⟩, text, messageId⟩ w).2.timers
        = w.timers ++ scheduled ∧
      (∀ p ∈ sent, p.target = some chatId) ∧
      (∀ t ∈ scheduled, t.task.target = chatId ∧
        ∀ w1, ∃ p, (t.task.run rt w1).posts = w1.posts ++ [p] ∧ p.target = some chatId) := by
  rw [handleMessage_listed ids rt chatId text messageId w s hs hmem]
  obtain ⟨sent, scheduled, h1, h2, h3, h4⟩ := handleText_effects rt chatId text messageId w
  refine ⟨sent, scheduled, h1, h2, h3, fun t ht => ⟨h4 t ht, fun w1 => ?_⟩⟩
  obtain ⟨p, hp1, hp2, _⟩ := Deferred.run_posts rt t.task w1
  exact ⟨p, hp1, by rw [hp2, h4 t ht]⟩

/-- Claim C19, instance: `/sms 999 hello` from the listed chat `42` is answered to chat `42`. -/
theorem replies_go_to_sender_witness :
    ∃ sent scheduled,
      (handleMessage ["42"] sampleRuntime
        ⟨some ⟨.number 42 (by decide)⟩, .string "/sms 999 hello", .number 7 (by decide)⟩
        World.init).2.posts = World.init.posts ++ sent ∧
      (handleMessage ["42"] sampleRuntime
        ⟨some ⟨.number 42 (by decide)⟩, .string "/sms 999 hello", .number 7 (by decide)⟩
        World.init).2.timers = World.init.timers ++ scheduled ∧
      (∀ p ∈ sent, p.target = some (.number 42 (by decide))) ∧
      (∀ t ∈ scheduled, t.task.target = .number 42 (by decide) ∧
        ∀ w1, ∃ p, (t.task.run sampleRuntime w1).posts = w1.posts ++ [p] ∧
          p.target = some (.number 42 (by decide))) :=
  replies_go_to_sender ["42"] sampleRuntime (.number 42 (by decide)) (.string "/sms 999 hello")
    (.number 7 (by decide)) World.init "42" (by decide) (by decide)

/-! ## The authorization check on numbers and strings -/

/-- Digits pushed onto a non-empty list stay non-empty. -/
theorem toDigitsCore_ne_nil (b f n : Nat) (ds : List Char) (h : ds ≠ []) :
    Nat.toDigitsCore b f n ds ≠ [] := by
  induction f generalizing n ds with
  | zero => simpa [Nat.toDigitsCore] using h
  | succ f ih =>
    simp only [Nat.toDigitsCore]
    split_ifs
    · simp
    · exact ih _ _ (by simp)

/-- The decimal form of a natural number is not empty. -/
theorem nat_repr_ne_empty (m : Nat) : Nat.repr m ≠ "" := by
  intro h
  have hd : (Nat.toDigits 10 m) = [] := by
    have := congrArg String.data h
    simpa [Nat.repr, List.asString] using this
  simp only [Nat.toDigits, Nat.toDigitsCore] at hd
  split_ifs at hd
  exact toDigitsCore_ne_nil _ _ _ _ (by simp) hd

/-- The decimal form of an integer is not empty. -/
theorem int_toString_ne_empty (n : Int) : toString n ≠ "" := by
  cases n with
  | ofNat m => exact nat_repr_ne_empty m
  | negSucc m =>
    intro h
    have := congrArg String.data h
    simp [toString, String.data_append] at this

/-- Claim C17, counterexample: with the list `["0"]` the number `0` and its decimal string
form `"0"` both pass the authorization check, yet `/api/command` answers 400 to the number and
forwards the command for the string. -/
theorem zero_and_its_string_differ_on_api :
    targetAuthorized ["0"] (.number 0 (by decide)) = true ∧
    targetAuthorized ["0"] (.string "0") = true ∧
    apiCommand ["0"] sampleRuntime ⟨.string "battery", .falsy, .number 0 (by decide)⟩ World.init
      = (⟨400, .failure "Telegram chat ID diperlukan"⟩, World.init) ∧
    apiCommand ["0"] sampleRuntime ⟨.string "battery", .falsy, .string "0"⟩ World.init
      = (⟨200, .success "Perintah berhasil dikirim"⟩,
          ⟨[.sendMessage (.string "0") (webCommandText "battery" .falsy) none], [], 0⟩) := by
  decide

/-- Claim C17, amended: for every list, the check on a number is true exactly when its decimal
form is an entry of the list, the check on a string is true exactly when the string is an
entry, so a number and its decimal string form get the same verdict. In the webhook path both
forms are handled alike: the text is handled when the decimal form is listed, and the canned
rejection is sent otherwise. In the `/api/command` path both forms are handled alike when the
number is not `0`: the command is forwarded when the decimal form is listed (a command without
a text form raising the fault answered 500), and the answer is 403 otherwise. The check is a
function of the identity and the list alone. -/
theorem numeric_and_string_ids_alike (ids : List String) (rt : Runtime) (n : Int)
    (safe : n.natAbs ≤ 9007199254740992) :
    (targetAuthorized ids (.number n safe) = true ↔ toString n ∈ ids) ∧
    (∀ s, targetAuthorized ids (.string s) = true ↔ s ∈ ids) ∧
    targetAuthorized ids (.number n safe) = targetAuthorized ids (.string (toString n)) ∧
    (∀ id, id = .number n safe ∨ id = .string (toString n) →
      ∀ (text messageId : JsValue) (w : World),
        handleMessage ids rt ⟨some ⟨id⟩, text, messageId⟩ w =
          if toString n ∈ ids then handleText rt id text messageId w
          else (.ok (),
            { w with posts := w.posts ++ [.sendMessage id notAuthorizedText none] })) ∧
    (n ≠ 0 → ∀ id, id = .number n safe ∨ id = .string (toString n) →
      ∀ (command : JsValue) (data : DataField) (w : World),
        apiCommand ids rt ⟨command, data, id⟩ w =
          if toString n ∈ ids then
            match command.render? with
            | some c =>
              (match (sendTelegramMessage rt id (webCommandText c data) .null w).1 with
                | .success _ => ⟨200, .success "Perintah berhasil dikirim"⟩
                | .failure error => ⟨500, .failure error⟩,
               { w with posts := w.posts ++
                  [.sendMessage id (webCommandText c data) none] })
            | none => (⟨500, .failure (rt.errorMessage .typeError)⟩, w)
          else (⟨403, .failure "Chat ID tidak diizinkan"⟩, w)) := by
  refine ⟨by simp [targetAuthorized, JsValue.toString?],
    fun s => by simp [targetAuthorized, JsValue.toString?],
    by simp [targetAuthorized, JsValue.toString?], ?_, ?_⟩
  · intro id hid text messageId w
    have hs : id.toString? = some (toString n) := by
      rcases hid with rfl | rfl <;> rfl
    by_cases hmem : toString n ∈ ids
    · rw [if_pos hmem, handleMessage_listed ids rt id text messageId w _ hs hmem]
    · rw [if_neg hmem, handleMessage_unlisted ids rt id text messageId w _ hs hmem]
  · intro hn id hid command data w
    have hs : id.toString? = some (toString n) := by
      rcases hid with rfl | rfl <;> rfl
    have ht : id.truthy = true := by
      rcases hid with rfl | rfl
      · simp [JsValue.truthy, hn]
      · simp [JsValue.truthy, int_toString_ne_empty n]
    by_cases hmem : toString n ∈ ids
    · rw [if_pos hmem]
      cases hc : command.render? with
      | none => exact apiCommand_command_fault ids rt ⟨command, data, id⟩ w _ ht hs hmem hc
      | some c => exact apiCommand_listed ids rt ⟨command, data, id⟩ w _ c ht hs hmem hc
    · rw [if_neg hmem, apiCommand_unlisted ids rt ⟨command, data, id⟩ w _ ht hs hmem]

/-- Claim C17, instance: the number `42` and the string `"42"` on `/api/command` with the list
`["42"]`. -/
theorem numeric_and_string_ids_alike_witness :
    (apiCommand ["42"] sampleRuntime ⟨.string "battery", .falsy, .number 42 (by decide)⟩ World.init).1
      = ⟨200, .success "Perintah berhasil dikirim"⟩ ∧
    (apiCommand ["42"] sampleRuntime ⟨.string "battery", .falsy, .string "42"⟩ World.init).1
      = ⟨200, .success "Perintah berhasil dikirim"⟩ :=
  ⟨congrArg Prod.fst
      ((numeric_and_string_ids_alike ["42"] sampleRuntime 42 (by decide)).2.2.2.2 (by decide)
        (.number 42 (by decide)) (Or.inl rfl) (.string "battery") .falsy World.init),
   congrArg Prod.fst
      ((numeric_and_string_ids_alike ["42"] sampleRuntime 42 (by decide)).2.2.2.2 (by decide)
        (.string "42") (Or.inr rfl) (.string "battery") .falsy World.init)⟩

/-! ## The web path against the chat path -/

/-- The chat text of a send-SMS action begins with `/sms`. -/
theorem startsWith_sms_chatCommand (number body : String) :
    startsWith (Action.sendSms number body).chatCommand "/sms" = true := by
  simp [Action.chatCommand, startsWith, String.data_append]

/-- The chat text of a call action begins with `/call` and not with `/sms`. -/
theorem startsWith_call_chatCommand (number : String) :
    startsWith (Action.call number).chatCommand "/call" = true ∧
    startsWith (Action.call number).chatCommand "/sms" = false := by
  constructor
  · simp [Action.chatCommand, startsWith, String.data_append]
  · simp only [Action.chatCommand, startsWith, String.data_append]
    rfl

/-- The shape of what `handleCommand` does for the chat text of an action. -/
theorem chatCommand_shape (rt : Runtime) (c m : JsValue) (w : World) (a : Action) :
    effectShape w (handleCommand rt c a.chatCommand m w) =
      match a with
      | .location => ([.location, .message], [])
      | .screenshot => ([.message], [(2000, .photo)])
      | .camera => ([.message], [(3000, .photo)])
      | .reboot => ([.message], [(5000, .message)])
      | _ => ([.message], []) := by
  cases a with
  | sendSms number body =>
    have h := startsWith_sms_chatCommand number body
    rw [handleCommand_default rt c _ m w (not_caseLabel_of_sms _ h), if_pos h]
    split_ifs <;> simp [effectShape, sendTelegramMessage_world, HttpPost.kind]
  | call number =>
    obtain ⟨h1, h2⟩ := startsWith_call_chatCommand number
    rw [handleCommand_default rt c _ m w (not_caseLabel_of_call _ h1), h2, if_pos h1]
    split_ifs <;> simp [effectShape, sendTelegramMessage_world, HttpPost.kind]
  | _ =>
    simp [Action.chatCommand, handleCommand, effectShape, sendTelegramMessage_world,
      sendTelegramLocation_world, setTimeout, mathRandom, HttpPost.kind, Deferred.kind]

/-- The web notification begins with the desktop-computer emoji. -/
theorem webCommandText_head (command : String) (data : DataField) :
    (webCommandText command data).data.head? = some '🖥' := by
  cases data with
  | falsy => simp [webCommandText, String.data_append]
  | truthy keys json =>
    by_cases hk : keys > 0 <;> simp [webCommandText, hk, String.data_append]

/-- No text that `handleCommand` sends for the chat command of an action is the web
notification. -/
theorem chatCommand_text_ne_web (rt : Runtime) (c m : JsValue) (w : World) (a : Action)
    (command : String) (data : DataField) (i : JsValue) (r : Option JsValue) :
    HttpPost.sendMessage i (webCommandText command data) r ∉
      (handleCommand rt c a.chatCommand m w).posts.drop w.posts.length := by
  have hweb := webCommandText_head command data
  intro hp
  cases a with
  | sendSms number body =>
    have h := startsWith_sms_chatCommand number body
    rw [handleCommand_default rt c _ m w (not_caseLabel_of_sms _ h), if_pos h] at hp
    split_ifs at hp <;>
      simp [sendTelegramMessage_world] at hp <;>
      · have h2 := congrArg (fun t => t.data.head?) hp.2.1
        simp [hweb, smsSentText, smsUsageText, String.data_append] at h2
  | call number =>
    obtain ⟨h1, h2⟩ := startsWith_call_chatCommand number
    rw [handleCommand_default rt c _ m w (not_caseLabel_of_call _ h1), h2, if_neg (by simp),
      if_pos h1] at hp
    split_ifs at hp <;>
      simp [sendTelegramMessage_world] at hp <;>
      · have h2 := congrArg (fun t => t.data.head?) hp.2.1
        simp [hweb, callingText, callUsageText, String.data_append] at h2
  | location =>
    simp [Action.chatCommand, handleCommand, sendTelegramMessage_world,
      sendTelegramLocation_world, mathRandom] at hp
    have h2 := congrArg (fun t => t.data.head?) hp.2.1
    simp [hweb, locationText, String.data_append] at h2
  | battery =>
    simp [Action.chatCommand, handleCommand, sendTelegramMessage_world, mathRandom] at hp
    have h2 := congrArg (fun t => t.data.head?) hp.2.1
    simp [hweb, batteryText, String.data_append] at h2
  | apps =>
    simp [Action.chatCommand, handleCommand, sendTelegramMessage_world] at hp
    have h2 := congrArg (fun t => t.data.head?) hp.2.1
    simp [hweb, appsText, String.data_append] at h2
  | _ =>
    simp [Action.chatCommand, handleCommand, sendTelegramMessage_world, setTimeout] at hp
    have h2 := congrArg (fun t => t.data.head?) hp.2.1
    simp [hweb, deviceInfoText, notificationsText, String.data_append] at h2

/-- Claim C11, counterexample: for the listed identity `42`, the web command `location` makes
one POST, a `sendMessage` with the web notification, while the chat command `/location` makes
two, a `sendLocation` and a `sendMessage`. -/
theorem web_location_differs_from_chat_location :
    Action.location.webCommand = "location" ∧
    Action.location.chatCommand = "/location" ∧
    (apiCommand ["42"] sampleRuntime
        ⟨.string "location", .truthy 0 "\x7b\x7d", .number 42 (by decide)⟩ World.init).2
      = ⟨[.sendMessage (.number 42 (by decide))
            "🖥️ <b>Perintah dari Web</b>\n\nPerintah: <code>location</code>" none], [], 0⟩ ∧
    effectShape World.init
        (apiCommand ["42"] sampleRuntime
          ⟨.string "location", .truthy 0 "\x7b\x7d", .number 42 (by decide)⟩ World.init).2
      = ([.message], []) ∧
    effectShape World.init
        (handleCommand sampleRuntime (.number 42 (by decide)) "/location"
          (.number 7 (by decide)) World.init)
      = ([.location, .message], []) := by
  refine ⟨rfl, rfl, by decide, by decide, ?_⟩
  exact chatCommand_shape sampleRuntime _ _ World.init .location

/-- Claim C11, amended: for every action that exists on both surfaces, every data and every
truthy identity with a listed string form, `/api/command` makes exactly one POST, a
`sendMessage` to the identity whose body is the web notification naming the command and its
data, and schedules nothing. `handleCommand` has that same shape (one `sendMessage`, nothing
scheduled) for the equivalent chat command exactly for battery, device info, flash toggle,
apps, notifications, send SMS and call; for location it also sends a location, and for
screenshot, camera and reboot it also schedules a follow-up. The web notification is never
among the texts `handleCommand` sends. -/
theorem web_command_is_forwarded (ids : List String) (rt : Runtime) (a : Action)
    (data : DataField) (id messageId : JsValue) (w : World) (s : String)
    (ht : id.truthy = true) (hs : id.toString? = some s) (hmem : s ∈ ids) :
    (apiCommand ids rt ⟨.string a.webCommand, data, id⟩ w).2 =
      { w with posts := w.posts ++ [.sendMessage id (webCommandText a.webCommand data) none] } ∧
    effectShape w (apiCommand ids rt ⟨.string a.webCommand, data, id⟩ w).2 = ([.message], []) ∧
    (effectShape w (handleCommand rt id a.chatCommand messageId w)
        = effectShape w (apiCommand ids rt ⟨.string a.webCommand, data, id⟩ w).2
      ↔ a.singleReply = true) ∧
    (∀ (i : JsValue) (r : Option JsValue),
      HttpPost.sendMessage i (webCommandText a.webCommand data) r ∉
        (handleCommand rt id a.chatCommand messageId w).posts.drop w.posts.length) := by
  have hw := apiCommand_listed ids rt ⟨.string a.webCommand, data, id⟩ w s a.webCommand
    ht hs hmem rfl
  have hshape : effectShape w (apiCommand ids rt ⟨.string a.webCommand, data, id⟩ w).2
      = ([.message], []) := by
    rw [hw]
    simp [effectShape, HttpPost.kind]
  refine ⟨by rw [hw], hshape, ?_, fun i r =>
    chatCommand_text_ne_web rt id messageId w a a.webCommand data i r⟩
  rw [hshape, chatCommand_shape]
  cases a <;> simp [Action.singleReply]

/-- Claim C11, instance: the dashboard's `battery` command and the chat command `/battery` for
the listed identity `42` both make one `sendMessage` and schedule nothing. -/
theorem web_command_is_forwarded_witness :
    effectShape World.init
        (handleCommand sampleRuntime (.number 42 (by decide)) Action.battery.chatCommand
          (.number 7 (by decide)) World.init)
      = effectShape World.init
          (apiCommand ["42"] sampleRuntime
            ⟨.string Action.battery.webCommand, .truthy 0 "\x7b\x7d", .number 42 (by decide)⟩
            World.init).2 :=
  ((web_command_is_forwarded ["42"] sampleRuntime .battery (.truthy 0 "\x7b\x7d")
      (.number 42 (by decide)) (.number 7 (by decide)) World.init "42"
      (by decide) (by decide) (by decide)).2.2.1).mpr rfl

end Relay
